import Mathlib

set_option maxRecDepth 8000
set_option maxHeartbeats 1000000

/-!
Verification of the BCM2835 CPRMAN clock-manager driver (drivers/clk path of
this repository, the file holding `bcm2835_pll_set_rate` and friends).

The C code is shallowly embedded: machine words are `Nat` (u32 values are
kept below `2 ^ 32` by the word-level operations themselves), the register
block is a function from offsets to values together with a write trace, and
each driver function becomes a Lean function on that state.  The bitwise
operations of the source (`&`, `|`, `~` on u32) are embedded as
fuel-indexed structural recursions so that every definition is executable
and kernel-reducible.
-/

/-- Bitwise AND of the low `f` bits of two naturals (C `&` on an `f`-bit word). -/
def landF : Nat → Nat → Nat → Nat
  | 0, _, _ => 0
  | f + 1, a, b => 2 * landF f (a / 2) (b / 2) + min (a % 2) (b % 2)

/-- Bitwise OR of the low `f` bits of two naturals (C `|` on an `f`-bit word). -/
def lorF : Nat → Nat → Nat → Nat
  | 0, _, _ => 0
  | f + 1, a, b => 2 * lorF f (a / 2) (b / 2) + max (a % 2) (b % 2)

/-- Bitwise complement of the low `f` bits of a natural (C `~` on an `f`-bit word). -/
def notF : Nat → Nat → Nat
  | 0, _ => 0
  | f + 1, a => 2 * notF f (a / 2) + (1 - a % 2)

/-- C `&` on u32. -/
def land32 (a b : Nat) : Nat := landF 32 a b

/-- C `|` on u32. -/
def lor32 (a b : Nat) : Nat := lorF 32 a b

/-- C `~` on u32. -/
def not32 (a : Nat) : Nat := notF 32 a

/-- C `&` on u64 (used for the 64-bit divisor computations). -/
def land64 (a b : Nat) : Nat := landF 64 a b

/-- Truncation to an unsigned 32-bit value (C assignment to a u32 lvalue). -/
def U32 (x : Nat) : Nat := x % 2 ^ 32

theorem landF_zero_left (f b : Nat) : landF f 0 b = 0 := by
  induction f generalizing b with
  | zero => rfl
  | succ f ih => simp [landF, ih]

theorem landF_zero_right (f a : Nat) : landF f a 0 = 0 := by
  induction f generalizing a with
  | zero => rfl
  | succ f ih => simp [landF, ih]

theorem landF_lt (f a b : Nat) : landF f a b < 2 ^ f := by
  induction f generalizing a b with
  | zero => simp [landF]
  | succ f ih =>
    have h := ih (a / 2) (b / 2)
    have hm : min (a % 2) (b % 2) ≤ 1 := le_trans (min_le_left _ _) (Nat.le_of_lt_succ (Nat.mod_lt _ (by omega)))
    simp only [landF, pow_succ]
    omega

theorem lorF_lt (f a b : Nat) : lorF f a b < 2 ^ f := by
  induction f generalizing a b with
  | zero => simp [lorF]
  | succ f ih =>
    have h := ih (a / 2) (b / 2)
    have h1 : a % 2 ≤ 1 := Nat.le_of_lt_succ (Nat.mod_lt _ (by omega))
    have h2 : b % 2 ≤ 1 := Nat.le_of_lt_succ (Nat.mod_lt _ (by omega))
    have hm : max (a % 2) (b % 2) ≤ 1 := by omega
    simp only [lorF, pow_succ]
    omega

theorem notF_lt (f a : Nat) : notF f a < 2 ^ f := by
  induction f generalizing a with
  | zero => simp [notF]
  | succ f ih =>
    have h := ih (a / 2)
    simp only [notF, pow_succ]
    omega

theorem lorF_zero_left (f b : Nat) (hb : b < 2 ^ f) : lorF f 0 b = b := by
  induction f generalizing b with
  | zero => simp [lorF]; omega
  | succ f ih =>
    have hb2 : b / 2 < 2 ^ f := by
      rw [pow_succ] at hb; omega
    simp only [lorF, Nat.zero_div, Nat.zero_mod]
    rw [ih _ hb2]
    omega

theorem lorF_zero_right (f a : Nat) (ha : a < 2 ^ f) : lorF f a 0 = a := by
  induction f generalizing a with
  | zero => simp [lorF]; omega
  | succ f ih =>
    have ha2 : a / 2 < 2 ^ f := by
      rw [pow_succ] at ha; omega
    simp only [lorF, Nat.zero_div, Nat.zero_mod]
    rw [ih _ ha2]
    omega

theorem landF_comm (f a b : Nat) : landF f a b = landF f b a := by
  induction f generalizing a b with
  | zero => rfl
  | succ f ih => simp only [landF, ih (a / 2)]; omega

theorem landF_assoc (f a b c : Nat) :
    landF f (landF f a b) c = landF f a (landF f b c) := by
  induction f generalizing a b c with
  | zero => rfl
  | succ f ih =>
    have hab : min (a % 2) (b % 2) ≤ 1 := by
      have : a % 2 ≤ 1 := by omega
      omega
    have hbc : min (b % 2) (c % 2) ≤ 1 := by
      have : b % 2 ≤ 1 := by omega
      omega
    simp only [landF]
    have e1 : (2 * landF f (a / 2) (b / 2) + min (a % 2) (b % 2)) / 2 = landF f (a / 2) (b / 2) := by
      omega
    have e2 : (2 * landF f (a / 2) (b / 2) + min (a % 2) (b % 2)) % 2 = min (a % 2) (b % 2) := by
      omega
    have e3 : (2 * landF f (b / 2) (c / 2) + min (b % 2) (c % 2)) / 2 = landF f (b / 2) (c / 2) := by
      omega
    have e4 : (2 * landF f (b / 2) (c / 2) + min (b % 2) (c % 2)) % 2 = min (b % 2) (c % 2) := by
      omega
    rw [e1, e2, e3, e4, ih]
    have : min (min (a % 2) (b % 2)) (c % 2) = min (a % 2) (min (b % 2) (c % 2)) := min_assoc _ _ _
    omega

theorem landF_lorF_distrib (f a b c : Nat) :
    landF f (lorF f a b) c = lorF f (landF f a c) (landF f b c) := by
  induction f generalizing a b c with
  | zero => rfl
  | succ f ih =>
    have ha : a % 2 ≤ 1 := by omega
    have hb : b % 2 ≤ 1 := by omega
    have hc : c % 2 ≤ 1 := by omega
    simp only [lorF, landF]
    have e1 : (2 * lorF f (a / 2) (b / 2) + max (a % 2) (b % 2)) / 2 = lorF f (a / 2) (b / 2) := by
      omega
    have e2 : (2 * lorF f (a / 2) (b / 2) + max (a % 2) (b % 2)) % 2 = max (a % 2) (b % 2) := by
      omega
    have e3 : (2 * landF f (a / 2) (c / 2) + min (a % 2) (c % 2)) / 2 = landF f (a / 2) (c / 2) := by
      omega
    have e4 : (2 * landF f (a / 2) (c / 2) + min (a % 2) (c % 2)) % 2 = min (a % 2) (c % 2) := by
      omega
    have e5 : (2 * landF f (b / 2) (c / 2) + min (b % 2) (c % 2)) / 2 = landF f (b / 2) (c / 2) := by
      omega
    have e6 : (2 * landF f (b / 2) (c / 2) + min (b % 2) (c % 2)) % 2 = min (b % 2) (c % 2) := by
      omega
    rw [e1, e2, e3, e4, e5, e6, ih]
    have : min (max (a % 2) (b % 2)) (c % 2) = max (min (a % 2) (c % 2)) (min (b % 2) (c % 2)) := by
      omega
    omega

/-- AND with a low-bit mask `2 ^ k - 1` is reduction modulo `2 ^ k`. -/
theorem landF_mask (f k a : Nat) (hk : k ≤ f) (ha : a < 2 ^ f) :
    landF f a (2 ^ k - 1) = a % 2 ^ k := by
  induction f generalizing k a with
  | zero =>
    interval_cases k
    simp [landF]; omega
  | succ f ih =>
    cases k with
    | zero =>
      simp [landF, landF_zero_right, Nat.mod_one]
    | succ k =>
      have hk' : k ≤ f := by omega
      have ha' : a / 2 < 2 ^ f := by rw [pow_succ] at ha; omega
      have hpow : (1 : Nat) ≤ 2 ^ (k + 1) := Nat.one_le_two_pow
      have hd : (2 ^ (k + 1) - 1) / 2 = 2 ^ k - 1 := by
        rw [pow_succ]
        have : (1 : Nat) ≤ 2 ^ k := Nat.one_le_two_pow
        omega
      have hm : (2 ^ (k + 1) - 1) % 2 = 1 := by
        rw [pow_succ]
        have : (1 : Nat) ≤ 2 ^ k := Nat.one_le_two_pow
        omega
      simp only [landF, hd, hm, ih k (a / 2) hk' ha']
      have hmm : a % (2 * 2 ^ k) = a % 2 + 2 * (a / 2 % 2 ^ k) := Nat.mod_mul
      have hpp : 2 ^ (k + 1) = 2 * 2 ^ k := by ring
      have hmod : a % 2 ^ (k + 1) = a % 2 + 2 * (a / 2 % 2 ^ k) := by
        rw [hpp, hmm]
      have : min (a % 2) 1 = a % 2 := by omega
      omega

/-- AND with a low-bit mask leaves a small value unchanged. -/
theorem landF_mask_self (f k a : Nat) (hk : k ≤ f) (hf : a < 2 ^ k) :
    landF f a (2 ^ k - 1) = a := by
  have ha : a < 2 ^ f := lt_of_lt_of_le hf (Nat.pow_le_pow_right (by omega) hk)
  rw [landF_mask f k a hk ha, Nat.mod_eq_of_lt hf]

/-- AND against a single bit extracts that bit. -/
theorem landF_bit (f k a : Nat) (hk : k < f) :
    landF f a (2 ^ k) = a / 2 ^ k % 2 * 2 ^ k := by
  induction f generalizing k a with
  | zero => omega
  | succ f ih =>
    cases k with
    | zero =>
      simp only [pow_zero, landF]
      have h1 : (1 : Nat) / 2 = 0 := by omega
      have h2 : (1 : Nat) % 2 = 1 := by omega
      rw [h1, h2, landF_zero_right]
      have : a % 2 ≤ 1 := by omega
      omega
    | succ k =>
      have hk' : k < f := by omega
      have hd : 2 ^ (k + 1) / 2 = 2 ^ k := by rw [pow_succ]; omega
      have hm : 2 ^ (k + 1) % 2 = 0 := by
        rw [pow_succ]; omega
      simp only [landF, hd, hm, ih k (a / 2) hk']
      have hdd : a / 2 / 2 ^ k = a / 2 ^ (k + 1) := by
        rw [Nat.div_div_eq_div_mul, pow_succ']
      rw [hdd]
      have h0 : min (a % 2) 0 = 0 := by omega
      rw [h0]
      have hr : a / 2 ^ (k + 1) % 2 * 2 ^ (k + 1) = 2 * (a / 2 ^ (k + 1) % 2 * 2 ^ k) := by
        rw [pow_succ]; ring
      omega

/-- ORing a masked value back into the mask gives the mask. -/
theorem lorF_landF_absorb (f a b : Nat) (hb : b < 2 ^ f) :
    lorF f (landF f a b) b = b := by
  induction f generalizing a b with
  | zero => simp [lorF]; omega
  | succ f ih =>
    have hb' : b / 2 < 2 ^ f := by rw [pow_succ] at hb; omega
    simp only [landF, lorF]
    have hm : min (a % 2) (b % 2) ≤ 1 := by
      have : a % 2 ≤ 1 := by omega
      omega
    have e1 : (2 * landF f (a / 2) (b / 2) + min (a % 2) (b % 2)) / 2 = landF f (a / 2) (b / 2) := by
      omega
    have e2 : (2 * landF f (a / 2) (b / 2) + min (a % 2) (b % 2)) % 2 = min (a % 2) (b % 2) := by
      omega
    rw [e1, e2, ih _ _ hb']
    have : max (min (a % 2) (b % 2)) (b % 2) = b % 2 := by omega
    omega

/-- A value ANDed against a mask's complement then against the mask is zero. -/
theorem landF_notF_self (f a b : Nat) : landF f (landF f a (notF f b)) b = 0 := by
  induction f generalizing a b with
  | zero => rfl
  | succ f ih =>
    have hb : b % 2 ≤ 1 := by omega
    have ha : a % 2 ≤ 1 := by omega
    have hd : (2 * notF f (b / 2) + (1 - b % 2)) / 2 = notF f (b / 2) := by omega
    have hm : (2 * notF f (b / 2) + (1 - b % 2)) % 2 = 1 - b % 2 := by omega
    show landF (f + 1) (landF (f + 1) a (2 * notF f (b / 2) + (1 - b % 2))) b = 0
    have hinner : landF (f + 1) a (2 * notF f (b / 2) + (1 - b % 2))
        = 2 * landF f (a / 2) (notF f (b / 2)) + min (a % 2) (1 - b % 2) := by
      simp only [landF, hd, hm]
    rw [hinner]
    have hmin : min (a % 2) (1 - b % 2) ≤ 1 := by omega
    have e1 : (2 * landF f (a / 2) (notF f (b / 2)) + min (a % 2) (1 - b % 2)) / 2
        = landF f (a / 2) (notF f (b / 2)) := by omega
    have e2 : (2 * landF f (a / 2) (notF f (b / 2)) + min (a % 2) (1 - b % 2)) % 2
        = min (a % 2) (1 - b % 2) := by omega
    simp only [landF, e1, e2, ih]
    have : min (min (a % 2) (1 - b % 2)) (b % 2) = 0 := by omega
    omega

/-- AND ignores the bits of the mask above the value's width. -/
theorem landF_mod_right (f k a b : Nat) (ha : a < 2 ^ k) :
    landF f a b = landF f a (b % 2 ^ k) := by
  induction f generalizing k a b with
  | zero => rfl
  | succ f ih =>
    cases k with
    | zero =>
      have : a = 0 := by omega
      subst this
      rw [landF_zero_left, landF_zero_left]
    | succ k =>
      have ha' : a / 2 < 2 ^ k := by rw [pow_succ] at ha; omega
      have hbd : b % 2 ^ (k + 1) / 2 = b / 2 % 2 ^ k := by
        have hmm : b % (2 * 2 ^ k) = b % 2 + 2 * (b / 2 % 2 ^ k) := Nat.mod_mul
        have hpp : 2 ^ (k + 1) = 2 * 2 ^ k := by ring
        have hb2 : b % 2 ≤ 1 := by omega
        rw [hpp, hmm]
        omega
      have hbm : b % 2 ^ (k + 1) % 2 = b % 2 := by
        have : (2 : Nat) ∣ 2 ^ (k + 1) := dvd_pow_self 2 (by omega)
        exact Nat.mod_mod_of_dvd b this
      simp only [landF, hbd, hbm]
      rw [ih k (a / 2) (b / 2) ha']

/-! ## Register access layer (`struct bcm2835_cprman`, `cprman_read`/`cprman_write`)

The register block is modelled as a map from byte offsets to stored words,
together with the ordered trace of writes performed (offset and the value
passed to `cprman_write`, before the password is ORed in).  `cprman_write`
stores `CM_PASSWORD | val`, mirroring `writel(CM_PASSWORD | val, ...)`. -/

structure MMIO where
  regs : Nat → Nat
  trace : List (Nat × Nat)

def CM_PASSWORD : Nat := 0x5a000000

def cprman_write (m : MMIO) (reg val : Nat) : MMIO :=
  { regs := fun r => if r = reg then lor32 CM_PASSWORD val else m.regs r,
    trace := m.trace ++ [(reg, val)] }

def cprman_read (m : MMIO) (reg : Nat) : Nat :=
  m.regs reg

/-- A register block with every register reading as zero and no writes yet. -/
def mmio0 : MMIO := { regs := fun _ => 0, trace := [] }

/-! ## Register constants (from the `#define` block of the source) -/

def CM_PLLA : Nat := 0x104
def CM_PLLB : Nat := 0x170
def CM_PLLC : Nat := 0x108
def CM_PLLD : Nat := 0x10c
def CM_PLLH : Nat := 0x110
def CM_LOCK_FLOCKH : Nat := 1 <<< 12
def CM_LOCK_FLOCKD : Nat := 1 <<< 11
def CM_LOCK_FLOCKC : Nat := 1 <<< 10
def CM_LOCK_FLOCKB : Nat := 1 <<< 9
def CM_LOCK_FLOCKA : Nat := 1 <<< 8

def A2W_PLLA_CTRL : Nat := 0x1100
def A2W_PLLC_CTRL : Nat := 0x1120
def A2W_PLLD_CTRL : Nat := 0x1140
def A2W_PLLH_CTRL : Nat := 0x1160
def A2W_PLLB_CTRL : Nat := 0x11e0
def A2W_PLL_CTRL_PDIV_MASK : Nat := 0x000007000
def A2W_PLL_CTRL_PDIV_SHIFT : Nat := 12
def A2W_PLL_CTRL_NDIV_MASK : Nat := 0x0000003ff
def A2W_PLL_CTRL_NDIV_SHIFT : Nat := 0

def A2W_PLLA_ANA0 : Nat := 0x1010
def A2W_PLLC_ANA0 : Nat := 0x1030
def A2W_PLLD_ANA0 : Nat := 0x1050
def A2W_PLLH_ANA0 : Nat := 0x1070
def A2W_PLLB_ANA0 : Nat := 0x10f0

def A2W_XOSC_CTRL : Nat := 0x1190
def A2W_XOSC_CTRL_PLLB_ENABLE : Nat := 1 <<< 7
def A2W_XOSC_CTRL_PLLA_ENABLE : Nat := 1 <<< 6
def A2W_XOSC_CTRL_PLLD_ENABLE : Nat := 1 <<< 5
def A2W_XOSC_CTRL_DDR_ENABLE : Nat := 1 <<< 4
def A2W_XOSC_CTRL_PLLC_ENABLE : Nat := 1 <<< 0

def A2W_PLLA_FRAC : Nat := 0x1200
def A2W_PLLC_FRAC : Nat := 0x1220
def A2W_PLLD_FRAC : Nat := 0x1240
def A2W_PLLH_FRAC : Nat := 0x1260
def A2W_PLLB_FRAC : Nat := 0x12e0
def A2W_PLL_FRAC_BITS : Nat := 20
def A2W_PLL_FRAC_MASK : Nat := (1 <<< A2W_PLL_FRAC_BITS) - 1

def A2W_PLL_CHANNEL_DISABLE : Nat := 1 <<< 8

def A2W_PLLA_CORE : Nat := 0x1400
def A2W_PLLA_PER : Nat := 0x1500
def A2W_PLLB_ARM : Nat := 0x13e0
def A2W_PLLC_CORE2 : Nat := 0x1320
def A2W_PLLC_CORE1 : Nat := 0x1420
def A2W_PLLC_PER : Nat := 0x1520
def A2W_PLLC_CORE0 : Nat := 0x1620
def A2W_PLLD_CORE : Nat := 0x1440
def A2W_PLLD_PER : Nat := 0x1540
def A2W_PLLH_AUX : Nat := 0x1360
def A2W_PLLH_RCAL : Nat := 0x1460
def A2W_PLLH_PIX : Nat := 0x1560

def CM_PLLA_HOLDPER : Nat := 1 <<< 7
def CM_PLLA_LOADPER : Nat := 1 <<< 6
def CM_PLLA_HOLDCORE : Nat := 1 <<< 5
def CM_PLLA_LOADCORE : Nat := 1 <<< 4
def CM_PLLB_HOLDARM : Nat := 1 <<< 1
def CM_PLLB_LOADARM : Nat := 1 <<< 0
def CM_PLLC_HOLDPER : Nat := 1 <<< 7
def CM_PLLC_LOADPER : Nat := 1 <<< 6
def CM_PLLC_HOLDCORE2 : Nat := 1 <<< 5
def CM_PLLC_LOADCORE2 : Nat := 1 <<< 4
def CM_PLLC_HOLDCORE1 : Nat := 1 <<< 3
def CM_PLLC_LOADCORE1 : Nat := 1 <<< 2
def CM_PLLC_HOLDCORE0 : Nat := 1 <<< 1
def CM_PLLC_LOADCORE0 : Nat := 1 <<< 0
def CM_PLLD_HOLDPER : Nat := 1 <<< 7
def CM_PLLD_LOADPER : Nat := 1 <<< 6
def CM_PLLD_HOLDCORE : Nat := 1 <<< 5
def CM_PLLD_LOADCORE : Nat := 1 <<< 4
def CM_PLLH_LOADAUX : Nat := 1 <<< 1
def CM_PLLH_LOADPIX : Nat := 1 <<< 0
def CM_PLLH_LOADRCAL : Nat := 1 <<< 2

def CM_GNRICCTL : Nat := 0x000
def CM_DIV_FRAC_BITS : Nat := 12
def CM_ENABLE : Nat := 1 <<< 4
def CM_GATE : Nat := 1 <<< 6
def CM_BUSY : Nat := 1 <<< 7
def CM_VPUCTL : Nat := 0x008
def CM_VPUDIV : Nat := 0x00c
def CM_H264CTL : Nat := 0x028
def CM_H264DIV : Nat := 0x02c
def CM_ISPCTL : Nat := 0x030
def CM_ISPDIV : Nat := 0x034
def CM_V3DCTL : Nat := 0x038
def CM_V3DDIV : Nat := 0x03c
def CM_HSMCTL : Nat := 0x088
def CM_HSMDIV : Nat := 0x08c
def CM_OTPCTL : Nat := 0x090
def CM_OTPDIV : Nat := 0x094
def CM_TSENSCTL : Nat := 0x0e0
def CM_TSENSDIV : Nat := 0x0e4
def CM_TIMERCTL : Nat := 0x0e8
def CM_TIMERDIV : Nat := 0x0ec
def CM_UARTCTL : Nat := 0x0f0
def CM_UARTDIV : Nat := 0x0f4
def CM_VECCTL : Nat := 0x0f8
def CM_VECDIV : Nat := 0x0fc
def CM_SDCCTL : Nat := 0x1a8
def CM_SDCDIV : Nat := 0x1ac
def CM_EMMCCTL : Nat := 0x1c0
def CM_EMMCDIV : Nat := 0x1c4

/-! ## PLL data (`struct bcm2835_pll_data`, `struct bcm2835_pll_ana_bits`) -/

structure bcm2835_pll_ana_bits where
  mask0 : Nat
  set0 : Nat
  mask1 : Nat
  set1 : Nat
  mask3 : Nat
  set3 : Nat
  fb_prediv_bit : Nat
deriving DecidableEq, Repr

structure bcm2835_pll_data where
  name : String
  cm_ctrl_reg : Nat
  a2w_ctrl_reg : Nat
  frac_reg : Nat
  ana_reg_base : Nat
  reference_enable_mask : Nat
  lock_mask : Nat
  ana : bcm2835_pll_ana_bits
  min_rate : Nat
  max_rate : Nat
  max_fb_rate : Nat
deriving DecidableEq, Repr

def bcm2835_ana_default : bcm2835_pll_ana_bits :=
  { mask0 := 0,
    set0 := 0,
    mask1 := not32 (lor32 (7 <<< 19) (15 <<< 15)),
    set1 := lor32 (2 <<< 19) (8 <<< 15),
    mask3 := not32 (7 <<< 7),
    set3 := 6 <<< 1,
    fb_prediv_bit := 14 }

def bcm2835_ana_pllh : bcm2835_pll_ana_bits :=
  { mask0 := not32 (lor32 (7 <<< 19) (3 <<< 22)),
    set0 := lor32 (2 <<< 19) (2 <<< 22),
    mask1 := not32 (lor32 (1 <<< 0) (15 <<< 1)),
    set1 := 6 <<< 1,
    mask3 := 0,
    set3 := 0,
    fb_prediv_bit := 11 }

def bcm2835_plla_data : bcm2835_pll_data :=
  { name := "plla",
    cm_ctrl_reg := CM_PLLA,
    a2w_ctrl_reg := A2W_PLLA_CTRL,
    frac_reg := A2W_PLLA_FRAC,
    ana_reg_base := A2W_PLLA_ANA0,
    reference_enable_mask := A2W_XOSC_CTRL_PLLA_ENABLE,
    lock_mask := CM_LOCK_FLOCKA,
    ana := bcm2835_ana_default,
    min_rate := 600000000,
    max_rate := 2400000000,
    max_fb_rate := 1750000000 }

def bcm2835_pllb_data : bcm2835_pll_data :=
  { name := "pllb",
    cm_ctrl_reg := CM_PLLB,
    a2w_ctrl_reg := A2W_PLLB_CTRL,
    frac_reg := A2W_PLLB_FRAC,
    ana_reg_base := A2W_PLLB_ANA0,
    reference_enable_mask := A2W_XOSC_CTRL_PLLB_ENABLE,
    lock_mask := CM_LOCK_FLOCKB,
    ana := bcm2835_ana_default,
    min_rate := 600000000,
    max_rate := 3000000000,
    max_fb_rate := 1750000000 }

def bcm2835_pllc_data : bcm2835_pll_data :=
  { name := "pllc",
    cm_ctrl_reg := CM_PLLC,
    a2w_ctrl_reg := A2W_PLLC_CTRL,
    frac_reg := A2W_PLLC_FRAC,
    ana_reg_base := A2W_PLLC_ANA0,
    reference_enable_mask := A2W_XOSC_CTRL_PLLC_ENABLE,
    lock_mask := CM_LOCK_FLOCKC,
    ana := bcm2835_ana_default,
    min_rate := 600000000,
    max_rate := 3000000000,
    max_fb_rate := 1750000000 }

def bcm2835_plld_data : bcm2835_pll_data :=
  { name := "plld",
    cm_ctrl_reg := CM_PLLD,
    a2w_ctrl_reg := A2W_PLLD_CTRL,
    frac_reg := A2W_PLLD_FRAC,
    ana_reg_base := A2W_PLLD_ANA0,
    reference_enable_mask := A2W_XOSC_CTRL_DDR_ENABLE,
    lock_mask := CM_LOCK_FLOCKD,
    ana := bcm2835_ana_default,
    min_rate := 600000000,
    max_rate := 2400000000,
    max_fb_rate := 1750000000 }

def bcm2835_pllh_data : bcm2835_pll_data :=
  { name := "pllh",
    cm_ctrl_reg := CM_PLLH,
    a2w_ctrl_reg := A2W_PLLH_CTRL,
    frac_reg := A2W_PLLH_FRAC,
    ana_reg_base := A2W_PLLH_ANA0,
    reference_enable_mask := A2W_XOSC_CTRL_PLLC_ENABLE,
    lock_mask := CM_LOCK_FLOCKH,
    ana := bcm2835_ana_pllh,
    min_rate := 600000000,
    max_rate := 3000000000,
    max_fb_rate := 1750000000 }

/-- The five PLLs registered by `bcm2835_clk_probe`. -/
def bcm2835_plls : List bcm2835_pll_data :=
  [bcm2835_plla_data, bcm2835_pllb_data, bcm2835_pllc_data,
   bcm2835_plld_data, bcm2835_pllh_data]

/-! ## PLL operations -/

/-- `bcm2835_pll_choose_ndiv_and_fdiv`: `div = (rate << 20) / parent_rate`,
`ndiv = div >> 20` (stored to u32), `fdiv = div & ((1 << 20) - 1)`. -/
def bcm2835_pll_choose_ndiv_and_fdiv (rate parent_rate : Nat) : Nat × Nat :=
  let div := (rate <<< A2W_PLL_FRAC_BITS) / parent_rate
  (U32 (div >>> A2W_PLL_FRAC_BITS), land64 div ((1 <<< A2W_PLL_FRAC_BITS) - 1))

/-- `bcm2835_pll_rate_from_divisors`.  `(ndiv << 20) + fdiv` is u32
arithmetic in the source, the division and shift are u64, and the result is
returned as a 32-bit `long`. -/
def bcm2835_pll_rate_from_divisors (parent_rate ndiv fdiv pdiv : Nat) : Nat :=
  if pdiv = 0 then 0
  else
    let rate := parent_rate * U32 ((ndiv <<< A2W_PLL_FRAC_BITS) + fdiv)
    U32 ((rate / pdiv) >>> A2W_PLL_FRAC_BITS)

/-- `bcm2835_pll_get_rate`: read back `fdiv`, `ndiv`, `pdiv`, double `ndiv`
when the feedback pre-divider bit of the second analog word is set, and
recombine. -/
def bcm2835_pll_get_rate (data : bcm2835_pll_data) (parent_rate : Nat)
    (m : MMIO) : Nat :=
  let a2wctrl := cprman_read m data.a2w_ctrl_reg
  if parent_rate = 0 then 0
  else
    let fdiv := land32 (cprman_read m data.frac_reg) A2W_PLL_FRAC_MASK
    let ndiv := land32 a2wctrl A2W_PLL_CTRL_NDIV_MASK >>> A2W_PLL_CTRL_NDIV_SHIFT
    let pdiv := land32 a2wctrl A2W_PLL_CTRL_PDIV_MASK >>> A2W_PLL_CTRL_PDIV_SHIFT
    let ndiv :=
      if land32 (cprman_read m (data.ana_reg_base + 4)) (1 <<< data.ana.fb_prediv_bit) ≠ 0
      then U32 (ndiv * 2)
      else ndiv
    bcm2835_pll_rate_from_divisors parent_rate ndiv fdiv pdiv

/-- Result of an operation that the C code reports through an `int` return:
`0` becomes `ok`, `-EINVAL` on a rate outside the PLL's range becomes
`outOfRange` (the spec's name for that error). -/
inductive ClkResult where
  | ok
  | outOfRange
deriving DecidableEq, Repr

/-- The block of four analog-config writes of `bcm2835_pll_set_rate`
(offsets `+12`, `+8`, `+4`, `+0`, in that order). -/
def bcm2835_pll_write_ana (m : MMIO) (ana_reg_base ana3 ana2 ana1 ana0 : Nat) : MMIO :=
  let m := cprman_write m (ana_reg_base + 12) ana3
  let m := cprman_write m (ana_reg_base + 8) ana2
  let m := cprman_write m (ana_reg_base + 4) ana1
  cprman_write m (ana_reg_base + 0) ana0

/-- `bcm2835_pll_set_rate`.  The trailing `bcm2835_pll_get_rate` call of the
source only reads registers (its result is discarded), so it does not appear
in the state transformation. -/
def bcm2835_pll_set_rate (data : bcm2835_pll_data) (rate parent_rate : Nat)
    (m : MMIO) : ClkResult × MMIO :=
  if rate < data.min_rate ∨ data.max_rate < rate then
    (ClkResult.outOfRange, m)
  else
    let use_fb_prediv := decide (data.max_fb_rate < rate)
    let rate := if use_fb_prediv then rate / 2 else rate
    let nf := bcm2835_pll_choose_ndiv_and_fdiv rate parent_rate
    let ndiv := nf.1
    let fdiv := nf.2
    let pdiv := 1
    let ana3 := cprman_read m (data.ana_reg_base + 12)
    let ana2 := cprman_read m (data.ana_reg_base + 8)
    let ana1 := cprman_read m (data.ana_reg_base + 4)
    let ana0 := cprman_read m (data.ana_reg_base + 0)
    let ana0 := lor32 (land32 ana0 (not32 data.ana.mask0)) data.ana.set0
    let ana1 := lor32 (land32 ana1 (not32 data.ana.mask1)) data.ana.set1
    let ana3 := lor32 (land32 ana3 (not32 data.ana.mask3)) data.ana.set3
    let fb := 1 <<< data.ana.fb_prediv_bit
    let step :=
      if land32 ana1 fb ≠ 0 ∧ use_fb_prediv = false then
        (land32 ana1 (not32 fb), true)
      else if land32 ana1 fb = 0 ∧ use_fb_prediv = true then
        (lor32 ana1 fb, false)
      else
        (ana1, true)
    let ana1 := step.1
    let do_ana_setup_first := step.2
    let m := cprman_write m A2W_XOSC_CTRL
      (lor32 (cprman_read m A2W_XOSC_CTRL) data.reference_enable_mask)
    let m :=
      if do_ana_setup_first then
        bcm2835_pll_write_ana m data.ana_reg_base ana3 ana2 ana1 ana0
      else m
    let m := cprman_write m data.frac_reg fdiv
    let m := cprman_write m data.a2w_ctrl_reg
      (lor32
        (lor32
          (land32 (cprman_read m data.a2w_ctrl_reg)
            (not32 (lor32 A2W_PLL_CTRL_NDIV_MASK A2W_PLL_CTRL_PDIV_MASK)))
          (ndiv <<< A2W_PLL_CTRL_NDIV_SHIFT))
        (pdiv <<< A2W_PLL_CTRL_PDIV_SHIFT))
    let m :=
      if do_ana_setup_first then m
      else bcm2835_pll_write_ana m data.ana_reg_base ana3 ana2 ana1 ana0
    (ClkResult.ok, m)

/-! ## PLL channel dividers (`struct bcm2835_pll_divider_data`) -/

structure bcm2835_pll_divider_data where
  name : String
  cm_reg : Nat
  a2w_reg : Nat
  load_mask : Nat
  hold_mask : Nat
  fixed_divider : Nat
deriving DecidableEq, Repr

def bcm2835_plla_core_data : bcm2835_pll_divider_data :=
  { name := "plla_core", cm_reg := CM_PLLA, a2w_reg := A2W_PLLA_CORE,
    load_mask := CM_PLLA_LOADCORE, hold_mask := CM_PLLA_HOLDCORE, fixed_divider := 1 }

def bcm2835_plla_per_data : bcm2835_pll_divider_data :=
  { name := "plla_per", cm_reg := CM_PLLA, a2w_reg := A2W_PLLA_PER,
    load_mask := CM_PLLA_LOADPER, hold_mask := CM_PLLA_HOLDPER, fixed_divider := 1 }

def bcm2835_pllb_arm_data : bcm2835_pll_divider_data :=
  { name := "pllb_arm", cm_reg := CM_PLLB, a2w_reg := A2W_PLLB_ARM,
    load_mask := CM_PLLB_LOADARM, hold_mask := CM_PLLB_HOLDARM, fixed_divider := 1 }

def bcm2835_pllc_core0_data : bcm2835_pll_divider_data :=
  { name := "pllc_core0", cm_reg := CM_PLLC, a2w_reg := A2W_PLLC_CORE0,
    load_mask := CM_PLLC_LOADCORE0, hold_mask := CM_PLLC_HOLDCORE0, fixed_divider := 1 }

def bcm2835_pllc_core1_data : bcm2835_pll_divider_data :=
  { name := "pllc_core1", cm_reg := CM_PLLC, a2w_reg := A2W_PLLC_CORE1,
    load_mask := CM_PLLC_LOADCORE1, hold_mask := CM_PLLC_HOLDCORE1, fixed_divider := 1 }

def bcm2835_pllc_core2_data : bcm2835_pll_divider_data :=
  { name := "pllc_core2", cm_reg := CM_PLLC, a2w_reg := A2W_PLLC_CORE2,
    load_mask := CM_PLLC_LOADCORE2, hold_mask := CM_PLLC_HOLDCORE2, fixed_divider := 1 }

def bcm2835_pllc_per_data : bcm2835_pll_divider_data :=
  { name := "pllc_per", cm_reg := CM_PLLC, a2w_reg := A2W_PLLC_PER,
    load_mask := CM_PLLC_LOADPER, hold_mask := CM_PLLC_HOLDPER, fixed_divider := 1 }

def bcm2835_plld_core_data : bcm2835_pll_divider_data :=
  { name := "plld_core", cm_reg := CM_PLLD, a2w_reg := A2W_PLLD_CORE,
    load_mask := CM_PLLD_LOADCORE, hold_mask := CM_PLLD_HOLDCORE, fixed_divider := 1 }

def bcm2835_plld_per_data : bcm2835_pll_divider_data :=
  { name := "plld_per", cm_reg := CM_PLLD, a2w_reg := A2W_PLLD_PER,
    load_mask := CM_PLLD_LOADPER, hold_mask := CM_PLLD_HOLDPER, fixed_divider := 1 }

def bcm2835_pllh_rcal_data : bcm2835_pll_divider_data :=
  { name := "pllh_rcal", cm_reg := CM_PLLH, a2w_reg := A2W_PLLH_RCAL,
    load_mask := CM_PLLH_LOADRCAL, hold_mask := 0, fixed_divider := 10 }

def bcm2835_pllh_aux_data : bcm2835_pll_divider_data :=
  { name := "pllh_aux", cm_reg := CM_PLLH, a2w_reg := A2W_PLLH_AUX,
    load_mask := CM_PLLH_LOADAUX, hold_mask := 0, fixed_divider := 10 }

def bcm2835_pllh_pix_data : bcm2835_pll_divider_data :=
  { name := "pllh_pix", cm_reg := CM_PLLH, a2w_reg := A2W_PLLH_PIX,
    load_mask := CM_PLLH_LOADPIX, hold_mask := 0, fixed_divider := 10 }

/-- The eleven PLL channel dividers registered by `bcm2835_clk_probe`. -/
def bcm2835_pll_dividers : List bcm2835_pll_divider_data :=
  [bcm2835_plla_core_data, bcm2835_plla_per_data, bcm2835_pllb_arm_data,
   bcm2835_pllc_core0_data, bcm2835_pllc_core1_data, bcm2835_pllc_core2_data,
   bcm2835_pllc_per_data, bcm2835_plld_core_data, bcm2835_plld_per_data,
   bcm2835_pllh_rcal_data, bcm2835_pllh_aux_data, bcm2835_pllh_pix_data]

/-- `bcm2835_pll_divider_off`: set the hold bit (and drop the load bit) in
the parent PLL's control register, then write the channel-disable bit. -/
def bcm2835_pll_divider_off (data : bcm2835_pll_divider_data) (m : MMIO) : MMIO :=
  let m := cprman_write m data.cm_reg
    (lor32 (land32 (cprman_read m data.cm_reg) (not32 data.load_mask)) data.hold_mask)
  cprman_write m data.a2w_reg A2W_PLL_CHANNEL_DISABLE

/-- `bcm2835_pll_divider_on`: clear the channel-disable bit, then clear the
hold bit in the parent PLL's control register. -/
def bcm2835_pll_divider_on (data : bcm2835_pll_divider_data) (m : MMIO) :
    ClkResult × MMIO :=
  let m := cprman_write m data.a2w_reg
    (land32 (cprman_read m data.a2w_reg) (not32 A2W_PLL_CHANNEL_DISABLE))
  let m := cprman_write m data.cm_reg
    (land32 (cprman_read m data.cm_reg) (not32 data.hold_mask))
  (ClkResult.ok, m)

/-! ## Peripheral clocks (`struct bcm2835_clock_data`)

The mux-parent name tables are only consumed by the registration glue
(`bcm2835_register_clock`), not by the clock operations, so only the fields
the operations read are embedded. -/

structure bcm2835_clock_data where
  name : String
  ctl_reg : Nat
  div_reg : Nat
  int_bits : Nat
  frac_bits : Nat
  is_nonstop : Bool := false
deriving DecidableEq, Repr

def bcm2835_clock_timer_data : bcm2835_clock_data :=
  { name := "timer", ctl_reg := CM_TIMERCTL, div_reg := CM_TIMERDIV,
    int_bits := 6, frac_bits := 12 }

def bcm2835_clock_otp_data : bcm2835_clock_data :=
  { name := "otp", ctl_reg := CM_OTPCTL, div_reg := CM_OTPDIV,
    int_bits := 4, frac_bits := 0 }

def bcm2835_clock_vpu_data : bcm2835_clock_data :=
  { name := "vpu", ctl_reg := CM_VPUCTL, div_reg := CM_VPUDIV,
    int_bits := 12, frac_bits := 8, is_nonstop := true }

def bcm2835_clock_v3d_data : bcm2835_clock_data :=
  { name := "v3d", ctl_reg := CM_V3DCTL, div_reg := CM_V3DDIV,
    int_bits := 4, frac_bits := 8 }

def bcm2835_clock_isp_data : bcm2835_clock_data :=
  { name := "isp", ctl_reg := CM_ISPCTL, div_reg := CM_ISPDIV,
    int_bits := 4, frac_bits := 8 }

def bcm2835_clock_h264_data : bcm2835_clock_data :=
  { name := "h264", ctl_reg := CM_H264CTL, div_reg := CM_H264DIV,
    int_bits := 4, frac_bits := 8 }

def bcm2835_clock_vec_data : bcm2835_clock_data :=
  { name := "vec", ctl_reg := CM_VECCTL, div_reg := CM_VECDIV,
    int_bits := 4, frac_bits := 0 }

def bcm2835_clock_uart_data : bcm2835_clock_data :=
  { name := "uart", ctl_reg := CM_UARTCTL, div_reg := CM_UARTDIV,
    int_bits := 10, frac_bits := 12 }

def bcm2835_clock_hsm_data : bcm2835_clock_data :=
  { name := "hsm", ctl_reg := CM_HSMCTL, div_reg := CM_HSMDIV,
    int_bits := 4, frac_bits := 8 }

def bcm2835_clock_sdram_data : bcm2835_clock_data :=
  { name := "sdram", ctl_reg := CM_SDCCTL, div_reg := CM_SDCDIV,
    int_bits := 6, frac_bits := 0 }

def bcm2835_clock_tsens_data : bcm2835_clock_data :=
  { name := "tsens", ctl_reg := CM_TSENSCTL, div_reg := CM_TSENSDIV,
    int_bits := 5, frac_bits := 0 }

def bcm2835_clock_emmc_data : bcm2835_clock_data :=
  { name := "emmc", ctl_reg := CM_EMMCCTL, div_reg := CM_EMMCDIV,
    int_bits := 4, frac_bits := 8 }

/-- The peripheral clocks registered by `bcm2835_clk_probe`. -/
def bcm2835_clocks : List bcm2835_clock_data :=
  [bcm2835_clock_timer_data, bcm2835_clock_otp_data, bcm2835_clock_vpu_data,
   bcm2835_clock_v3d_data, bcm2835_clock_isp_data, bcm2835_clock_h264_data,
   bcm2835_clock_vec_data, bcm2835_clock_uart_data, bcm2835_clock_hsm_data,
   bcm2835_clock_sdram_data, bcm2835_clock_tsens_data, bcm2835_clock_emmc_data]

/-- `bcm2835_clock_is_on`: non-stop clocks always report on; otherwise the
`CM_ENABLE` bit of the control register is tested. -/
def bcm2835_clock_is_on (data : bcm2835_clock_data) (m : MMIO) : Bool :=
  if data.is_nonstop then true
  else land32 (cprman_read m data.ctl_reg) CM_ENABLE != 0

/-- `bcm2835_clock_choose_div`: fixed-point divisor with per-clock unused
fractional bits rounded off and the result clamped.  `div` is a u32 in the
source, so both the initial quotient and the rounding addition wrap at
`2 ^ 32`. -/
def bcm2835_clock_choose_div (data : bcm2835_clock_data)
    (rate parent_rate : Nat) : Nat :=
  let unused_frac_mask := (1 <<< (CM_DIV_FRAC_BITS - data.frac_bits)) - 1
  let temp := (parent_rate <<< CM_DIV_FRAC_BITS) / rate
  let div := U32 temp
  let div :=
    if unused_frac_mask ≠ 0 then
      land32 (U32 (div + (unused_frac_mask >>> 1))) (not32 unused_frac_mask)
    else div
  let div := max div (unused_frac_mask + 1)
  let div := min div
    (land32 ((1 <<< (data.int_bits + CM_DIV_FRAC_BITS)) - 1) (not32 unused_frac_mask))
  div

/-- `bcm2835_clock_rate_from_divisor`: drop the unused low bits, mask to
the clock's own width, and invert the fixed-point division. -/
def bcm2835_clock_rate_from_divisor (data : bcm2835_clock_data)
    (parent_rate div : Nat) : Nat :=
  let div := div >>> (CM_DIV_FRAC_BITS - data.frac_bits)
  let div := land32 div ((1 <<< (data.int_bits + data.frac_bits)) - 1)
  if div = 0 then 0
  else U32 ((parent_rate <<< data.frac_bits) / div)

/-- `bcm2835_clock_wait_busy` polls the `CM_BUSY` bit of the control
register; it performs reads only, so it is the identity on the register
state (its termination is a hardware liveness assumption outside this
model). -/
def bcm2835_clock_wait_busy (data : bcm2835_clock_data) (m : MMIO) : MMIO :=
  m

/-- `bcm2835_clock_off`: a no-op for non-stop clocks; otherwise clear
`CM_ENABLE` and wait for the divider cycle to finish. -/
def bcm2835_clock_off (data : bcm2835_clock_data) (m : MMIO) : MMIO :=
  if data.is_nonstop then m
  else
    let m := cprman_write m data.ctl_reg
      (land32 (cprman_read m data.ctl_reg) (not32 CM_ENABLE))
    bcm2835_clock_wait_busy data m

/-- `bcm2835_clock_on`: a successful no-op for non-stop clocks; otherwise
set `CM_ENABLE` and `CM_GATE` in one write. -/
def bcm2835_clock_on (data : bcm2835_clock_data) (m : MMIO) : ClkResult × MMIO :=
  if data.is_nonstop then (ClkResult.ok, m)
  else
    (ClkResult.ok,
     cprman_write m data.ctl_reg
       (lor32 (lor32 (cprman_read m data.ctl_reg) CM_ENABLE) CM_GATE))

/-- `bcm2835_clock_set_rate`: choose the divisor and write it to the
divider register; always returns 0. -/
def bcm2835_clock_set_rate (data : bcm2835_clock_data)
    (rate parent_rate : Nat) (m : MMIO) : ClkResult × MMIO :=
  let div := bcm2835_clock_choose_div data rate parent_rate
  (ClkResult.ok, cprman_write m data.div_reg div)

/-! ## Basic facts about the register model and the u32 operations -/

theorem cprman_read_write_self (m : MMIO) (reg val : Nat) :
    cprman_read (cprman_write m reg val) reg = lor32 CM_PASSWORD val := by
  simp [cprman_read, cprman_write]

theorem cprman_read_write_ne (m : MMIO) (reg val r : Nat) (h : r ≠ reg) :
    cprman_read (cprman_write m reg val) r = cprman_read m r := by
  simp [cprman_read, cprman_write, h]

theorem cprman_write_trace (m : MMIO) (reg val : Nat) :
    (cprman_write m reg val).trace = m.trace ++ [(reg, val)] := rfl

theorem land32_lor32_distrib (a b c : Nat) :
    land32 (lor32 a b) c = lor32 (land32 a c) (land32 b c) :=
  landF_lorF_distrib 32 a b c

theorem land32_assoc (a b c : Nat) :
    land32 (land32 a b) c = land32 a (land32 b c) :=
  landF_assoc 32 a b c

theorem land32_zero_right (a : Nat) : land32 a 0 = 0 := landF_zero_right 32 a

theorem land32_lt (a b : Nat) : land32 a b < 2 ^ 32 := landF_lt 32 a b

theorem lor32_lt (a b : Nat) : lor32 a b < 2 ^ 32 := lorF_lt 32 a b

theorem lor32_zero_left (b : Nat) (hb : b < 2 ^ 32) : lor32 0 b = b :=
  lorF_zero_left 32 b hb

theorem lor32_zero_right (a : Nat) (ha : a < 2 ^ 32) : lor32 a 0 = a :=
  lorF_zero_right 32 a ha

/-- A masked-and-ORed word has a zero bit wherever both the kept mask and
the OR-ed constant have a zero bit. -/
theorem land32_masked_or_zero (x notm s c : Nat)
    (h1 : land32 notm c = 0) (h2 : land32 s c = 0) :
    land32 (lor32 (land32 x notm) s) c = 0 := by
  rw [land32_lor32_distrib, land32_assoc, h1, h2, land32_zero_right,
    lor32_zero_left _ (by omega)]

/-- Extracting a low-bit field from a masked-and-ORed word in which the
kept mask and the high OR-ed part have no low bits. -/
theorem land32_masked_or_low (x notm s c : Nat)
    (h1 : land32 notm c = 0) (h2 : land32 s c = s) :
    land32 (lor32 (land32 x notm) s) c = s := by
  have hs : s < 2 ^ 32 := h2 ▸ land32_lt s c
  rw [land32_lor32_distrib, land32_assoc, h1, h2, land32_zero_right,
    lor32_zero_left _ hs]

theorem bcm2835_pll_write_ana_trace (m : MMIO) (base a3 a2 a1 a0 : Nat) :
    (bcm2835_pll_write_ana m base a3 a2 a1 a0).trace =
      m.trace ++ [(base + 12, a3), (base + 8, a2), (base + 4, a1), (base + 0, a0)] := by
  simp [bcm2835_pll_write_ana, cprman_write]

theorem cprman_read_write_ana_ne (m : MMIO) (base a3 a2 a1 a0 r : Nat)
    (h12 : r ≠ base + 12) (h8 : r ≠ base + 8) (h4 : r ≠ base + 4)
    (h0 : r ≠ base + 0) :
    cprman_read (bcm2835_pll_write_ana m base a3 a2 a1 a0) r = cprman_read m r := by
  unfold bcm2835_pll_write_ana
  rw [cprman_read_write_ne _ _ _ _ h0, cprman_read_write_ne _ _ _ _ h4,
    cprman_read_write_ne _ _ _ _ h8, cprman_read_write_ne _ _ _ _ h12]

theorem cprman_read_write_ana_a1 (m : MMIO) (base a3 a2 a1 a0 : Nat) :
    cprman_read (bcm2835_pll_write_ana m base a3 a2 a1 a0) (base + 4) =
      lor32 CM_PASSWORD a1 := by
  unfold bcm2835_pll_write_ana
  rw [cprman_read_write_ne _ _ _ _ (by omega), cprman_read_write_self]

/-- Explicit write sequence of a successful `bcm2835_pll_set_rate` call
that does not engage the feedback pre-divider: analog config is written
first (offsets `+12`, `+8`, `+4`, `+0`), then the fractional divisor, then
the control word.  The `hbit` hypothesis says the feedback pre-divider bit
of the rewritten second analog word is clear, which holds for every PLL of
this driver because neither the kept mask nor the OR-ed constant of the
second analog word contains that bit. -/
theorem bcm2835_pll_set_rate_shape_nofb (d : bcm2835_pll_data)
    (rate parent_rate : Nat) (m : MMIO)
    (hmin : d.min_rate ≤ rate) (hfb : rate ≤ d.max_fb_rate)
    (hmax : rate ≤ d.max_rate)
    (hbit : land32
      (lor32 (land32 (cprman_read m (d.ana_reg_base + 4)) (not32 d.ana.mask1))
        d.ana.set1)
      (1 <<< d.ana.fb_prediv_bit) = 0)
    (hc1 : d.a2w_ctrl_reg ≠ A2W_XOSC_CTRL)
    (hc2 : d.a2w_ctrl_reg ≠ d.ana_reg_base + 12)
    (hc3 : d.a2w_ctrl_reg ≠ d.ana_reg_base + 8)
    (hc4 : d.a2w_ctrl_reg ≠ d.ana_reg_base + 4)
    (hc5 : d.a2w_ctrl_reg ≠ d.ana_reg_base + 0)
    (hc6 : d.a2w_ctrl_reg ≠ d.frac_reg) :
    bcm2835_pll_set_rate d rate parent_rate m =
      (ClkResult.ok,
       cprman_write
         (cprman_write
           (bcm2835_pll_write_ana
             (cprman_write m A2W_XOSC_CTRL
               (lor32 (cprman_read m A2W_XOSC_CTRL) d.reference_enable_mask))
             d.ana_reg_base
             (lor32 (land32 (cprman_read m (d.ana_reg_base + 12)) (not32 d.ana.mask3))
               d.ana.set3)
             (cprman_read m (d.ana_reg_base + 8))
             (lor32 (land32 (cprman_read m (d.ana_reg_base + 4)) (not32 d.ana.mask1))
               d.ana.set1)
             (lor32 (land32 (cprman_read m (d.ana_reg_base + 0)) (not32 d.ana.mask0))
               d.ana.set0))
           d.frac_reg (bcm2835_pll_choose_ndiv_and_fdiv rate parent_rate).2)
         d.a2w_ctrl_reg
         (lor32
           (lor32
             (land32 (cprman_read m d.a2w_ctrl_reg)
               (not32 (lor32 A2W_PLL_CTRL_NDIV_MASK A2W_PLL_CTRL_PDIV_MASK)))
             ((bcm2835_pll_choose_ndiv_and_fdiv rate parent_rate).1 <<<
               A2W_PLL_CTRL_NDIV_SHIFT))
           (1 <<< A2W_PLL_CTRL_PDIV_SHIFT))) := by
  have h0 : ¬(rate < d.min_rate ∨ d.max_rate < rate) := by omega
  have huse : decide (d.max_fb_rate < rate) = false := decide_eq_false (by omega)
  unfold bcm2835_pll_set_rate
  rw [if_neg h0]
  simp only [huse, Bool.false_eq_true, if_false, hbit, ne_eq, not_true_eq_false,
    false_and, and_true, and_false, if_true, not_false_eq_true, true_and]
  rw [cprman_read_write_ne _ _ _ _ hc6,
    cprman_read_write_ana_ne _ _ _ _ _ _ _ hc2 hc3 hc4 hc5,
    cprman_read_write_ne _ _ _ _ hc1]

/-- Explicit write sequence of a successful `bcm2835_pll_set_rate` call
that engages the feedback pre-divider (the bit goes from clear to set): the
fractional divisor and the control word are written first, the four analog
config words after, and the divisor pair is computed from the halved
rate. -/
theorem bcm2835_pll_set_rate_shape_fb (d : bcm2835_pll_data)
    (rate parent_rate : Nat) (m : MMIO)
    (hmin : d.min_rate ≤ rate) (hfb : d.max_fb_rate < rate)
    (hmax : rate ≤ d.max_rate)
    (hbit : land32
      (lor32 (land32 (cprman_read m (d.ana_reg_base + 4)) (not32 d.ana.mask1))
        d.ana.set1)
      (1 <<< d.ana.fb_prediv_bit) = 0)
    (hc1 : d.a2w_ctrl_reg ≠ A2W_XOSC_CTRL)
    (hc6 : d.a2w_ctrl_reg ≠ d.frac_reg) :
    bcm2835_pll_set_rate d rate parent_rate m =
      (ClkResult.ok,
       bcm2835_pll_write_ana
         (cprman_write
           (cprman_write
             (cprman_write m A2W_XOSC_CTRL
               (lor32 (cprman_read m A2W_XOSC_CTRL) d.reference_enable_mask))
             d.frac_reg (bcm2835_pll_choose_ndiv_and_fdiv (rate / 2) parent_rate).2)
           d.a2w_ctrl_reg
           (lor32
             (lor32
               (land32 (cprman_read m d.a2w_ctrl_reg)
                 (not32 (lor32 A2W_PLL_CTRL_NDIV_MASK A2W_PLL_CTRL_PDIV_MASK)))
               ((bcm2835_pll_choose_ndiv_and_fdiv (rate / 2) parent_rate).1 <<<
                 A2W_PLL_CTRL_NDIV_SHIFT))
             (1 <<< A2W_PLL_CTRL_PDIV_SHIFT)))
         d.ana_reg_base
         (lor32 (land32 (cprman_read m (d.ana_reg_base + 12)) (not32 d.ana.mask3))
           d.ana.set3)
         (cprman_read m (d.ana_reg_base + 8))
         (lor32
           (lor32 (land32 (cprman_read m (d.ana_reg_base + 4)) (not32 d.ana.mask1))
             d.ana.set1)
           (1 <<< d.ana.fb_prediv_bit))
         (lor32 (land32 (cprman_read m (d.ana_reg_base + 0)) (not32 d.ana.mask0))
           d.ana.set0)) := by
  have h0 : ¬(rate < d.min_rate ∨ d.max_rate < rate) := by omega
  have huse : decide (d.max_fb_rate < rate) = true := decide_eq_true (by omega)
  unfold bcm2835_pll_set_rate
  rw [if_neg h0]
  simp only [huse, Bool.true_eq_false, if_false, hbit, ne_eq, not_true_eq_false,
    false_and, and_true, and_false, if_true, not_false_eq_true, true_and, if_false,
    Bool.false_eq_true]
  rw [cprman_read_write_ne _ _ _ _ hc6, cprman_read_write_ne _ _ _ _ hc1]

theorem landF_self (f a : Nat) (ha : a < 2 ^ f) : landF f a a = a := by
  induction f generalizing a with
  | zero => simp [landF]; omega
  | succ f ih =>
    have ha' : a / 2 < 2 ^ f := by rw [pow_succ] at ha; omega
    simp only [landF, ih _ ha', min_self]
    omega

/-- C2: a PLL `set_rate` request outside `[min_rate, max_rate]` fails with
the out-of-range error and returns the register state unchanged: no write
is traced and every register keeps its value. -/
theorem bcm2835_pll_set_rate_out_of_range (d : bcm2835_pll_data)
    (rate parent_rate : Nat) (m : MMIO)
    (h : rate < d.min_rate ∨ d.max_rate < rate) :
    bcm2835_pll_set_rate d rate parent_rate m = (ClkResult.outOfRange, m) := by
  unfold bcm2835_pll_set_rate
  rw [if_pos h]

theorem bcm2835_pll_set_rate_out_of_range_witness :
    (599999999 < bcm2835_plla_data.min_rate ∨
      bcm2835_plla_data.max_rate < 599999999) ∧
    bcm2835_pll_set_rate bcm2835_plla_data 599999999 19200000 mmio0 =
      (ClkResult.outOfRange, mmio0) :=
  ⟨by decide,
   bcm2835_pll_set_rate_out_of_range bcm2835_plla_data 599999999 19200000 mmio0
     (by decide)⟩

/-- C8: a peripheral clock with the `is_nonstop` flag ignores gating:
`disable` leaves the state untouched (no register write), `enable` succeeds
without a register write, and `is_enabled` reports true in every state, in
particular immediately after `disable`. -/
theorem bcm2835_clock_nonstop_always_on (d : bcm2835_clock_data) (m : MMIO)
    (h : d.is_nonstop = true) :
    bcm2835_clock_off d m = m ∧
    bcm2835_clock_on d m = (ClkResult.ok, m) ∧
    bcm2835_clock_is_on d (bcm2835_clock_off d m) = true ∧
    bcm2835_clock_is_on d m = true := by
  unfold bcm2835_clock_off bcm2835_clock_on bcm2835_clock_is_on
  simp [h]

theorem bcm2835_clock_nonstop_always_on_witness :
    bcm2835_clock_vpu_data.is_nonstop = true ∧
    (bcm2835_clock_off bcm2835_clock_vpu_data mmio0 = mmio0 ∧
     bcm2835_clock_on bcm2835_clock_vpu_data mmio0 = (ClkResult.ok, mmio0) ∧
     bcm2835_clock_is_on bcm2835_clock_vpu_data
       (bcm2835_clock_off bcm2835_clock_vpu_data mmio0) = true ∧
     bcm2835_clock_is_on bcm2835_clock_vpu_data mmio0 = true) :=
  ⟨by decide, bcm2835_clock_nonstop_always_on bcm2835_clock_vpu_data mmio0 (by decide)⟩

/-- C6: for a PLL channel divider, `enable` writes the channel register
with the channel-disable bit cleared strictly before writing the parent
PLL's control register with the hold bit cleared, and `disable` writes the
parent's control register with the hold bit set strictly before writing
the channel register with the channel-disable bit set. -/
theorem bcm2835_pll_divider_gate_order (d : bcm2835_pll_divider_data) (m : MMIO)
    (hh : d.hold_mask < 2 ^ 32) (hne : d.cm_reg ≠ d.a2w_reg) :
    ((bcm2835_pll_divider_on d m).2.trace =
        m.trace ++
          [(d.a2w_reg, land32 (cprman_read m d.a2w_reg) (not32 A2W_PLL_CHANNEL_DISABLE)),
           (d.cm_reg, land32 (cprman_read m d.cm_reg) (not32 d.hold_mask))] ∧
      land32 (land32 (cprman_read m d.a2w_reg) (not32 A2W_PLL_CHANNEL_DISABLE))
        A2W_PLL_CHANNEL_DISABLE = 0 ∧
      land32 (land32 (cprman_read m d.cm_reg) (not32 d.hold_mask)) d.hold_mask = 0) ∧
    (bcm2835_pll_divider_off d m).trace =
        m.trace ++
          [(d.cm_reg, lor32 (land32 (cprman_read m d.cm_reg) (not32 d.load_mask)) d.hold_mask),
           (d.a2w_reg, A2W_PLL_CHANNEL_DISABLE)] ∧
      land32 (lor32 (land32 (cprman_read m d.cm_reg) (not32 d.load_mask)) d.hold_mask)
        d.hold_mask = d.hold_mask ∧
      land32 A2W_PLL_CHANNEL_DISABLE A2W_PLL_CHANNEL_DISABLE = A2W_PLL_CHANNEL_DISABLE := by
  refine ⟨⟨?_, ?_, ?_⟩, ?_, ?_, ?_⟩
  · unfold bcm2835_pll_divider_on
    simp only [cprman_read_write_ne _ _ _ _ hne, cprman_write_trace,
      List.append_assoc, List.cons_append, List.nil_append]
  · exact landF_notF_self 32 _ _
  · exact landF_notF_self 32 _ _
  · unfold bcm2835_pll_divider_off
    simp only [cprman_read_write_ne _ _ _ _ hne, cprman_write_trace,
      List.append_assoc, List.cons_append, List.nil_append]
  · rw [land32_lor32_distrib]
    unfold land32 lor32
    rw [landF_self 32 _ hh]
    exact lorF_landF_absorb 32 _ _ hh
  · exact landF_self 32 _ (by decide)

theorem bcm2835_pll_divider_gate_order_witness :
    bcm2835_plla_core_data.hold_mask < 2 ^ 32 ∧
    bcm2835_plla_core_data.cm_reg ≠ bcm2835_plla_core_data.a2w_reg ∧
    (((bcm2835_pll_divider_on bcm2835_plla_core_data mmio0).2.trace =
        mmio0.trace ++
          [(bcm2835_plla_core_data.a2w_reg,
            land32 (cprman_read mmio0 bcm2835_plla_core_data.a2w_reg)
              (not32 A2W_PLL_CHANNEL_DISABLE)),
           (bcm2835_plla_core_data.cm_reg,
            land32 (cprman_read mmio0 bcm2835_plla_core_data.cm_reg)
              (not32 bcm2835_plla_core_data.hold_mask))] ∧
      land32 (land32 (cprman_read mmio0 bcm2835_plla_core_data.a2w_reg)
          (not32 A2W_PLL_CHANNEL_DISABLE)) A2W_PLL_CHANNEL_DISABLE = 0 ∧
      land32 (land32 (cprman_read mmio0 bcm2835_plla_core_data.cm_reg)
          (not32 bcm2835_plla_core_data.hold_mask)) bcm2835_plla_core_data.hold_mask = 0) ∧
    (bcm2835_pll_divider_off bcm2835_plla_core_data mmio0).trace =
        mmio0.trace ++
          [(bcm2835_plla_core_data.cm_reg,
            lor32 (land32 (cprman_read mmio0 bcm2835_plla_core_data.cm_reg)
              (not32 bcm2835_plla_core_data.load_mask)) bcm2835_plla_core_data.hold_mask),
           (bcm2835_plla_core_data.a2w_reg, A2W_PLL_CHANNEL_DISABLE)] ∧
      land32 (lor32 (land32 (cprman_read mmio0 bcm2835_plla_core_data.cm_reg)
          (not32 bcm2835_plla_core_data.load_mask)) bcm2835_plla_core_data.hold_mask)
        bcm2835_plla_core_data.hold_mask = bcm2835_plla_core_data.hold_mask ∧
      land32 A2W_PLL_CHANNEL_DISABLE A2W_PLL_CHANNEL_DISABLE = A2W_PLL_CHANNEL_DISABLE) :=
  ⟨by decide, by decide,
   bcm2835_pll_divider_gate_order bcm2835_plla_core_data mmio0 (by decide) (by decide)⟩

/-- C10: a peripheral-clock `set_rate` never fails: for every positive
requested rate and any parent rate it reports success and performs exactly
one register write, storing the chosen (clamped, hence nonzero) divisor
into the divider register — there is no out-of-range rejection at this
layer, unlike the PLL's. -/
theorem bcm2835_clock_set_rate_total (d : bcm2835_clock_data)
    (rate parent_rate : Nat) (m : MMIO)
    (hd : d ∈ bcm2835_clocks) (hr : 0 < rate) :
    (bcm2835_clock_set_rate d rate parent_rate m).1 = ClkResult.ok ∧
    (bcm2835_clock_set_rate d rate parent_rate m).2.trace =
      m.trace ++ [(d.div_reg, bcm2835_clock_choose_div d rate parent_rate)] ∧
    0 < bcm2835_clock_choose_div d rate parent_rate := by
  refine ⟨rfl, rfl, ?_⟩
  have hstep : 0 < (1 <<< (CM_DIV_FRAC_BITS - d.frac_bits)) - 1 + 1 := by
    omega
  have hmaxpos :
      0 < land32 ((1 <<< (d.int_bits + CM_DIV_FRAC_BITS)) - 1)
        (not32 ((1 <<< (CM_DIV_FRAC_BITS - d.frac_bits)) - 1)) := by
    fin_cases hd <;> decide
  unfold bcm2835_clock_choose_div
  exact lt_min (lt_of_lt_of_le hstep (le_max_right _ _)) hmaxpos

theorem bcm2835_clock_set_rate_total_witness :
    bcm2835_clock_uart_data ∈ bcm2835_clocks ∧ 0 < 48000000 ∧
    ((bcm2835_clock_set_rate bcm2835_clock_uart_data 48000000 19200000 mmio0).1 =
      ClkResult.ok ∧
    (bcm2835_clock_set_rate bcm2835_clock_uart_data 48000000 19200000 mmio0).2.trace =
      mmio0.trace ++
        [(bcm2835_clock_uart_data.div_reg,
          bcm2835_clock_choose_div bcm2835_clock_uart_data 48000000 19200000)] ∧
    0 < bcm2835_clock_choose_div bcm2835_clock_uart_data 48000000 19200000) :=
  ⟨by decide, by decide,
   bcm2835_clock_set_rate_total bcm2835_clock_uart_data 48000000 19200000 mmio0
     (by decide) (by decide)⟩

/-- C3: in every successful PLL `set_rate` call, when the feedback
pre-divider bit (tested on the rewritten second analog word, exactly as the
code does) goes from set to clear or does not change, the four analog
writes precede the fractional-divisor and control writes; when it goes
from clear to set, the fractional-divisor and control writes precede the
four analog writes.  The first traced write is always the oscillator
reference unmask. -/
theorem bcm2835_pll_set_rate_analog_order (d : bcm2835_pll_data)
    (rate parent_rate : Nat) (m : MMIO)
    (hmin : d.min_rate ≤ rate) (hmax : rate ≤ d.max_rate) :
    (bcm2835_pll_set_rate d rate parent_rate m).2.trace.map Prod.fst =
      m.trace.map Prod.fst ++ [A2W_XOSC_CTRL] ++
      (if (land32
            (lor32 (land32 (cprman_read m (d.ana_reg_base + 4)) (not32 d.ana.mask1))
              d.ana.set1) (1 <<< d.ana.fb_prediv_bit) ≠ 0 ∧
            ¬ d.max_fb_rate < rate) ∨
          (land32
            (lor32 (land32 (cprman_read m (d.ana_reg_base + 4)) (not32 d.ana.mask1))
              d.ana.set1) (1 <<< d.ana.fb_prediv_bit) ≠ 0 ↔ d.max_fb_rate < rate) then
        [d.ana_reg_base + 12, d.ana_reg_base + 8, d.ana_reg_base + 4,
         d.ana_reg_base + 0, d.frac_reg, d.a2w_ctrl_reg]
      else
        [d.frac_reg, d.a2w_ctrl_reg, d.ana_reg_base + 12, d.ana_reg_base + 8,
         d.ana_reg_base + 4, d.ana_reg_base + 0]) := by
  have h0 : ¬(rate < d.min_rate ∨ d.max_rate < rate) := by omega
  unfold bcm2835_pll_set_rate
  rw [if_neg h0]
  by_cases hu : d.max_fb_rate < rate <;>
    by_cases hb :
      land32
        (lor32 (land32 (cprman_read m (d.ana_reg_base + 4)) (not32 d.ana.mask1))
          d.ana.set1) (1 <<< d.ana.fb_prediv_bit) = 0
  · have huse : decide (d.max_fb_rate < rate) = true := decide_eq_true hu
    rw [if_neg (by simp [hb, hu])]
    simp only [huse, hb, ne_eq, not_true_eq_false, false_and, and_true, and_false,
      true_and, if_true, if_false, Bool.true_eq_false, Bool.false_eq_true,
      not_false_eq_true, eq_self_iff_true]
    simp [bcm2835_pll_write_ana, cprman_write, cprman_read, List.append_assoc]
  · have huse : decide (d.max_fb_rate < rate) = true := decide_eq_true hu
    rw [if_pos (Or.inr (by simp [hb, hu]))]
    simp only [huse, hb, ne_eq, not_true_eq_false, false_and, and_true, and_false,
      true_and, if_true, if_false, Bool.true_eq_false, Bool.false_eq_true,
      not_false_eq_true, eq_self_iff_true]
    simp [bcm2835_pll_write_ana, cprman_write, cprman_read, List.append_assoc]
  · have huse : decide (d.max_fb_rate < rate) = false := decide_eq_false hu
    rw [if_pos (Or.inr (by simp [hb, hu]))]
    simp only [huse, hb, ne_eq, not_true_eq_false, false_and, and_true, and_false,
      true_and, if_true, if_false, Bool.true_eq_false, Bool.false_eq_true,
      not_false_eq_true, eq_self_iff_true]
    simp [bcm2835_pll_write_ana, cprman_write, cprman_read, List.append_assoc]
  · have huse : decide (d.max_fb_rate < rate) = false := decide_eq_false hu
    rw [if_pos (Or.inl (by simp [hb, hu]))]
    simp only [huse, hb, ne_eq, not_true_eq_false, false_and, and_true, and_false,
      true_and, if_true, if_false, Bool.true_eq_false, Bool.false_eq_true,
      not_false_eq_true, eq_self_iff_true]
    simp [bcm2835_pll_write_ana, cprman_write, cprman_read, List.append_assoc]

theorem bcm2835_pll_set_rate_analog_order_witness :
    bcm2835_plla_data.min_rate ≤ 1900000000 ∧
    1900000000 ≤ bcm2835_plla_data.max_rate ∧
    (bcm2835_pll_set_rate bcm2835_plla_data 1900000000 19200000 mmio0).2.trace.map
        Prod.fst =
      mmio0.trace.map Prod.fst ++ [A2W_XOSC_CTRL] ++
      (if (land32
            (lor32
              (land32 (cprman_read mmio0 (bcm2835_plla_data.ana_reg_base + 4))
                (not32 bcm2835_plla_data.ana.mask1))
              bcm2835_plla_data.ana.set1)
            (1 <<< bcm2835_plla_data.ana.fb_prediv_bit) ≠ 0 ∧
            ¬ bcm2835_plla_data.max_fb_rate < 1900000000) ∨
          (land32
            (lor32
              (land32 (cprman_read mmio0 (bcm2835_plla_data.ana_reg_base + 4))
                (not32 bcm2835_plla_data.ana.mask1))
              bcm2835_plla_data.ana.set1)
            (1 <<< bcm2835_plla_data.ana.fb_prediv_bit) ≠ 0 ↔
            bcm2835_plla_data.max_fb_rate < 1900000000) then
        [bcm2835_plla_data.ana_reg_base + 12, bcm2835_plla_data.ana_reg_base + 8,
         bcm2835_plla_data.ana_reg_base + 4, bcm2835_plla_data.ana_reg_base + 0,
         bcm2835_plla_data.frac_reg, bcm2835_plla_data.a2w_ctrl_reg]
      else
        [bcm2835_plla_data.frac_reg, bcm2835_plla_data.a2w_ctrl_reg,
         bcm2835_plla_data.ana_reg_base + 12, bcm2835_plla_data.ana_reg_base + 8,
         bcm2835_plla_data.ana_reg_base + 4, bcm2835_plla_data.ana_reg_base + 0]) :=
  ⟨by decide, by decide,
   bcm2835_pll_set_rate_analog_order bcm2835_plla_data 1900000000 19200000 mmio0
     (by decide) (by decide)⟩

/-- C7 counterexample: in a successful in-range `set_rate` on PLLA the
oscillator reference unmask is the very first traced write, so it does not
occur after the analog-config and divisor writes as claimed — the index of
the first analog write is not below the index of the unmask write. -/
theorem bcm2835_pll_set_rate_unmask_counterexample :
    bcm2835_plla_data.min_rate ≤ 600000000 ∧
    600000000 ≤ bcm2835_plla_data.max_rate ∧
    (bcm2835_pll_set_rate bcm2835_plla_data 600000000 19200000 mmio0).2.trace.map
        Prod.fst =
      [A2W_XOSC_CTRL, bcm2835_plla_data.ana_reg_base + 12,
       bcm2835_plla_data.ana_reg_base + 8, bcm2835_plla_data.ana_reg_base + 4,
       bcm2835_plla_data.ana_reg_base + 0, bcm2835_plla_data.frac_reg,
       bcm2835_plla_data.a2w_ctrl_reg] ∧
    ¬ (((bcm2835_pll_set_rate bcm2835_plla_data 600000000 19200000 mmio0).2.trace.map
          Prod.fst).findIdx (· == bcm2835_plla_data.ana_reg_base + 12) <
        ((bcm2835_pll_set_rate bcm2835_plla_data 600000000 19200000 mmio0).2.trace.map
          Prod.fst).findIdx (· == A2W_XOSC_CTRL)) := by
  decide

theorem bcm2835_pll_set_rate_unmask_first_aux (d : bcm2835_pll_data)
    (rate parent_rate : Nat) (m : MMIO)
    (hmin : d.min_rate ≤ rate) (hmax : rate ≤ d.max_rate)
    (hbit : land32
      (lor32 (land32 (cprman_read m (d.ana_reg_base + 4)) (not32 d.ana.mask1))
        d.ana.set1)
      (1 <<< d.ana.fb_prediv_bit) = 0)
    (hc1 : d.a2w_ctrl_reg ≠ A2W_XOSC_CTRL)
    (hc2 : d.a2w_ctrl_reg ≠ d.ana_reg_base + 12)
    (hc3 : d.a2w_ctrl_reg ≠ d.ana_reg_base + 8)
    (hc4 : d.a2w_ctrl_reg ≠ d.ana_reg_base + 4)
    (hc5 : d.a2w_ctrl_reg ≠ d.ana_reg_base + 0)
    (hc6 : d.a2w_ctrl_reg ≠ d.frac_reg)
    (hx : A2W_XOSC_CTRL ∉
      ([d.ana_reg_base + 12, d.ana_reg_base + 8, d.ana_reg_base + 4,
        d.ana_reg_base + 0, d.frac_reg, d.a2w_ctrl_reg] : List Nat)) :
    ∃ rest, (bcm2835_pll_set_rate d rate parent_rate m).2.trace =
        m.trace ++
          (A2W_XOSC_CTRL,
            lor32 (cprman_read m A2W_XOSC_CTRL) d.reference_enable_mask) :: rest ∧
      A2W_XOSC_CTRL ∉ rest.map Prod.fst := by
  simp only [List.mem_cons, List.not_mem_nil, or_false] at hx
  push_neg at hx
  obtain ⟨hx12, hx8, hx4, hx0, hxf, hxc⟩ := hx
  by_cases hu : d.max_fb_rate < rate
  · rw [bcm2835_pll_set_rate_shape_fb d rate parent_rate m hmin hu hmax hbit hc1 hc6]
    refine ⟨[(d.frac_reg, (bcm2835_pll_choose_ndiv_and_fdiv (rate / 2) parent_rate).2),
      (d.a2w_ctrl_reg,
        lor32
          (lor32
            (land32 (cprman_read m d.a2w_ctrl_reg)
              (not32 (lor32 A2W_PLL_CTRL_NDIV_MASK A2W_PLL_CTRL_PDIV_MASK)))
            ((bcm2835_pll_choose_ndiv_and_fdiv (rate / 2) parent_rate).1 <<<
              A2W_PLL_CTRL_NDIV_SHIFT))
          (1 <<< A2W_PLL_CTRL_PDIV_SHIFT)),
      (d.ana_reg_base + 12,
        lor32 (land32 (cprman_read m (d.ana_reg_base + 12)) (not32 d.ana.mask3))
          d.ana.set3),
      (d.ana_reg_base + 8, cprman_read m (d.ana_reg_base + 8)),
      (d.ana_reg_base + 4,
        lor32
          (lor32 (land32 (cprman_read m (d.ana_reg_base + 4)) (not32 d.ana.mask1))
            d.ana.set1)
          (1 <<< d.ana.fb_prediv_bit)),
      (d.ana_reg_base + 0,
        lor32 (land32 (cprman_read m (d.ana_reg_base + 0)) (not32 d.ana.mask0))
          d.ana.set0)], ?_, ?_⟩
    · simp only [bcm2835_pll_write_ana_trace, cprman_write_trace,
        List.append_assoc, List.cons_append, List.nil_append]
    · simp only [List.map_cons, List.map_nil, List.mem_cons, List.not_mem_nil,
        or_false]
      push_neg
      exact ⟨hxf, hxc, hx12, hx8, hx4, hx0⟩
  · rw [bcm2835_pll_set_rate_shape_nofb d rate parent_rate m hmin (by omega) hmax
      hbit hc1 hc2 hc3 hc4 hc5 hc6]
    refine ⟨[(d.ana_reg_base + 12,
        lor32 (land32 (cprman_read m (d.ana_reg_base + 12)) (not32 d.ana.mask3))
          d.ana.set3),
      (d.ana_reg_base + 8, cprman_read m (d.ana_reg_base + 8)),
      (d.ana_reg_base + 4,
        lor32 (land32 (cprman_read m (d.ana_reg_base + 4)) (not32 d.ana.mask1))
          d.ana.set1),
      (d.ana_reg_base + 0,
        lor32 (land32 (cprman_read m (d.ana_reg_base + 0)) (not32 d.ana.mask0))
          d.ana.set0),
      (d.frac_reg, (bcm2835_pll_choose_ndiv_and_fdiv rate parent_rate).2),
      (d.a2w_ctrl_reg,
        lor32
          (lor32
            (land32 (cprman_read m d.a2w_ctrl_reg)
              (not32 (lor32 A2W_PLL_CTRL_NDIV_MASK A2W_PLL_CTRL_PDIV_MASK)))
            ((bcm2835_pll_choose_ndiv_and_fdiv rate parent_rate).1 <<<
              A2W_PLL_CTRL_NDIV_SHIFT))
          (1 <<< A2W_PLL_CTRL_PDIV_SHIFT))], ?_, ?_⟩
    · simp only [bcm2835_pll_write_ana_trace, cprman_write_trace,
        List.append_assoc, List.cons_append, List.nil_append]
    · simp only [List.map_cons, List.map_nil, List.mem_cons, List.not_mem_nil,
        or_false]
      push_neg
      exact ⟨hx12, hx8, hx4, hx0, hxf, hxc⟩

/-- C7 amended: in every successful PLL `set_rate` call the oscillator
reference-enable unmask write is the first traced write — it precedes the
analog-config and divisor writes (the source performs it before them, not
after) — and it is performed unconditionally, for both feedback
pre-divider decisions. -/
theorem bcm2835_pll_set_rate_unmask_first (d : bcm2835_pll_data)
    (rate parent_rate : Nat) (m : MMIO) (hd : d ∈ bcm2835_plls)
    (hmin : d.min_rate ≤ rate) (hmax : rate ≤ d.max_rate) :
    ∃ rest, (bcm2835_pll_set_rate d rate parent_rate m).2.trace =
        m.trace ++
          (A2W_XOSC_CTRL,
            lor32 (cprman_read m A2W_XOSC_CTRL) d.reference_enable_mask) :: rest ∧
      A2W_XOSC_CTRL ∉ rest.map Prod.fst := by
  fin_cases hd <;>
    exact bcm2835_pll_set_rate_unmask_first_aux _ rate parent_rate m hmin hmax
      (land32_masked_or_zero _ _ _ _ (by decide) (by decide))
      (by decide) (by decide) (by decide) (by decide) (by decide) (by decide)
      (by decide)

theorem bcm2835_pll_set_rate_unmask_first_witness :
    bcm2835_pllh_data ∈ bcm2835_plls ∧
    bcm2835_pllh_data.min_rate ≤ 2000000000 ∧
    2000000000 ≤ bcm2835_pllh_data.max_rate ∧
    (∃ rest, (bcm2835_pll_set_rate bcm2835_pllh_data 2000000000 19200000 mmio0).2.trace =
        mmio0.trace ++
          (A2W_XOSC_CTRL,
            lor32 (cprman_read mmio0 A2W_XOSC_CTRL)
              bcm2835_pllh_data.reference_enable_mask) :: rest ∧
      A2W_XOSC_CTRL ∉ rest.map Prod.fst) :=
  ⟨by decide, by decide, by decide,
   bcm2835_pll_set_rate_unmask_first bcm2835_pllh_data 2000000000 19200000 mmio0
     (by decide) (by decide) (by decide)⟩

/-! ## Readback facts for the values `bcm2835_pll_set_rate` stores -/

theorem bcm2835_pll_choose_snd (rate parent_rate : Nat) (h : rate < 2 ^ 32) :
    (bcm2835_pll_choose_ndiv_and_fdiv rate parent_rate).2 =
      rate * 2 ^ 20 / parent_rate % 2 ^ 20 := by
  unfold bcm2835_pll_choose_ndiv_and_fdiv
  have hAB : A2W_PLL_FRAC_BITS = 20 := rfl
  rw [hAB, Nat.shiftLeft_eq rate 20]
  have hm : ((1 : Nat) <<< 20) - 1 = 2 ^ 20 - 1 := by decide
  have hdlt : rate * 2 ^ 20 / parent_rate < 2 ^ 64 := by
    refine lt_of_le_of_lt (Nat.div_le_self _ _) ?_
    have h1 : rate * 2 ^ 20 < 2 ^ 32 * 2 ^ 20 := by
      have h20 : (0 : Nat) < 2 ^ 20 := by positivity
      exact (mul_lt_mul_right h20).mpr h
    calc rate * 2 ^ 20 < 2 ^ 32 * 2 ^ 20 := h1
      _ ≤ 2 ^ 64 := by norm_num
  rw [hm]
  exact landF_mask 64 20 _ (by omega) hdlt

theorem bcm2835_pll_choose_fst (rate parent_rate : Nat)
    (hfit : rate < 1024 * parent_rate) :
    (bcm2835_pll_choose_ndiv_and_fdiv rate parent_rate).1 =
      rate * 2 ^ 20 / parent_rate / 2 ^ 20 ∧
    rate * 2 ^ 20 / parent_rate / 2 ^ 20 < 2 ^ 10 := by
  have hp : 0 < parent_rate := by omega
  have hq : rate * 2 ^ 20 / parent_rate / 2 ^ 20 = rate / parent_rate := by
    rw [Nat.div_div_eq_div_mul, Nat.mul_comm parent_rate (2 ^ 20),
      Nat.mul_comm rate (2 ^ 20), Nat.mul_div_mul_left _ _ (by positivity)]
  have hlt : rate / parent_rate < 1024 := by
    rw [Nat.div_lt_iff_lt_mul hp]
    omega
  have hlt' : rate * 2 ^ 20 / parent_rate / 2 ^ 20 < 2 ^ 10 := by
    rw [hq]
    calc rate / parent_rate < 1024 := hlt
      _ ≤ 2 ^ 10 := by norm_num
  refine ⟨?_, hlt'⟩
  have hAB : A2W_PLL_FRAC_BITS = 20 := rfl
  have e0 : (bcm2835_pll_choose_ndiv_and_fdiv rate parent_rate).1
      = U32 (((rate <<< A2W_PLL_FRAC_BITS) / parent_rate) >>> A2W_PLL_FRAC_BITS) :=
    rfl
  rw [e0, hAB, Nat.shiftLeft_eq rate 20, Nat.shiftRight_eq_div_pow]
  unfold U32
  rw [Nat.mod_eq_of_lt (lt_trans hlt' (by norm_num))]

theorem pll_frac_readback (v : Nat) (hv : v < 2 ^ 20) :
    land32 (lor32 CM_PASSWORD v) A2W_PLL_FRAC_MASK = v := by
  rw [land32_lor32_distrib]
  have h1 : land32 CM_PASSWORD A2W_PLL_FRAC_MASK = 0 := by decide
  have h2 : land32 v A2W_PLL_FRAC_MASK = v := by
    have hm : A2W_PLL_FRAC_MASK = 2 ^ 20 - 1 := by decide
    rw [hm]; exact landF_mask_self 32 20 v (by omega) hv
  rw [h1, h2, lor32_zero_left _ (by omega)]

theorem land32_mask_self (k v : Nat) (hk : k ≤ 32) (hv : v < 2 ^ k) :
    land32 v (2 ^ k - 1) = v :=
  landF_mask_self 32 k v hk hv

theorem land32_self (a : Nat) (ha : a < 2 ^ 32) : land32 a a = a :=
  landF_self 32 a ha

theorem land32_mod_right (k a b : Nat) (ha : a < 2 ^ k) :
    land32 a b = land32 a (b % 2 ^ k) :=
  landF_mod_right 32 k a b ha

theorem pll_ctrl_ndiv_readback (old nv : Nat) (hnv : nv < 2 ^ 10) :
    land32
      (lor32 CM_PASSWORD
        (lor32
          (lor32
            (land32 old (not32 (lor32 A2W_PLL_CTRL_NDIV_MASK A2W_PLL_CTRL_PDIV_MASK)))
            (nv <<< A2W_PLL_CTRL_NDIV_SHIFT))
          (1 <<< A2W_PLL_CTRL_PDIV_SHIFT)))
      A2W_PLL_CTRL_NDIV_MASK >>> A2W_PLL_CTRL_NDIV_SHIFT = nv := by
  have hnv32 : nv < 2 ^ 32 := by omega
  have hz : nv <<< A2W_PLL_CTRL_NDIV_SHIFT = nv := rfl
  have h1 : land32 CM_PASSWORD A2W_PLL_CTRL_NDIV_MASK = 0 := by decide
  have h2 : land32 (not32 (lor32 A2W_PLL_CTRL_NDIV_MASK A2W_PLL_CTRL_PDIV_MASK))
      A2W_PLL_CTRL_NDIV_MASK = 0 := by decide
  have h3 : land32 (1 <<< A2W_PLL_CTRL_PDIV_SHIFT) A2W_PLL_CTRL_NDIV_MASK = 0 := by
    decide
  have h4 : land32 nv A2W_PLL_CTRL_NDIV_MASK = nv := by
    have hm : A2W_PLL_CTRL_NDIV_MASK = 2 ^ 10 - 1 := by decide
    rw [hm]; exact land32_mask_self 10 nv (by omega) hnv
  rw [hz, land32_lor32_distrib, h1, land32_lor32_distrib, land32_lor32_distrib,
    land32_assoc, h2, land32_zero_right, h3, h4, lor32_zero_left nv hnv32,
    lor32_zero_right nv hnv32, lor32_zero_left nv hnv32]
  rfl

theorem pll_ctrl_pdiv_readback (old nv : Nat) (hnv : nv < 2 ^ 10) :
    land32
      (lor32 CM_PASSWORD
        (lor32
          (lor32
            (land32 old (not32 (lor32 A2W_PLL_CTRL_NDIV_MASK A2W_PLL_CTRL_PDIV_MASK)))
            (nv <<< A2W_PLL_CTRL_NDIV_SHIFT))
          (1 <<< A2W_PLL_CTRL_PDIV_SHIFT)))
      A2W_PLL_CTRL_PDIV_MASK >>> A2W_PLL_CTRL_PDIV_SHIFT = 1 := by
  have hz : nv <<< A2W_PLL_CTRL_NDIV_SHIFT = nv := rfl
  have h1 : land32 CM_PASSWORD A2W_PLL_CTRL_PDIV_MASK = 0 := by decide
  have h2 : land32 (not32 (lor32 A2W_PLL_CTRL_NDIV_MASK A2W_PLL_CTRL_PDIV_MASK))
      A2W_PLL_CTRL_PDIV_MASK = 0 := by decide
  have h3 : land32 (1 <<< A2W_PLL_CTRL_PDIV_SHIFT) A2W_PLL_CTRL_PDIV_MASK =
      1 <<< A2W_PLL_CTRL_PDIV_SHIFT := by decide
  have h4 : land32 nv A2W_PLL_CTRL_PDIV_MASK = 0 := by
    rw [land32_mod_right 10 nv _ hnv]
    have hmz : A2W_PLL_CTRL_PDIV_MASK % 2 ^ 10 = 0 := by decide
    rw [hmz, land32_zero_right]
  rw [hz, land32_lor32_distrib, h1, land32_lor32_distrib, land32_lor32_distrib,
    land32_assoc, h2, land32_zero_right, h3, h4, lor32_zero_left 0 (by omega),
    lor32_zero_left _ (by decide), lor32_zero_left _ (by decide)]
  rfl

theorem pll_ana1_bit_clear (v b : Nat) (hv : land32 v b = 0)
    (hPB : land32 CM_PASSWORD b = 0) :
    land32 (lor32 CM_PASSWORD v) b = 0 := by
  rw [land32_lor32_distrib, hPB, hv, lor32_zero_left _ (by omega)]

theorem pll_ana1_bit_set (v b : Nat) (hv : land32 v b = 0)
    (hPB : land32 CM_PASSWORD b = 0) (hb : b < 2 ^ 32) :
    land32 (lor32 CM_PASSWORD (lor32 v b)) b = b := by
  rw [land32_lor32_distrib, land32_lor32_distrib, hPB, hv,
    land32_self b hb, lor32_zero_left b hb, lor32_zero_left b hb]

theorem bcm2835_pll_set_rate_readback_nofb (d : bcm2835_pll_data)
    (rate parent_rate : Nat) (m : MMIO)
    (hmin : d.min_rate ≤ rate) (hfb : rate ≤ d.max_fb_rate)
    (hmax : rate ≤ d.max_rate)
    (hr32 : rate < 2 ^ 32) (hfit : rate < 1024 * parent_rate)
    (hm1 : land32 (not32 d.ana.mask1) (1 <<< d.ana.fb_prediv_bit) = 0)
    (hs1 : land32 d.ana.set1 (1 <<< d.ana.fb_prediv_bit) = 0)
    (hPB : land32 CM_PASSWORD (1 <<< d.ana.fb_prediv_bit) = 0)
    (hc1 : d.a2w_ctrl_reg ≠ A2W_XOSC_CTRL)
    (hc2 : d.a2w_ctrl_reg ≠ d.ana_reg_base + 12)
    (hc3 : d.a2w_ctrl_reg ≠ d.ana_reg_base + 8)
    (hc4 : d.a2w_ctrl_reg ≠ d.ana_reg_base + 4)
    (hc5 : d.a2w_ctrl_reg ≠ d.ana_reg_base + 0)
    (hc6 : d.a2w_ctrl_reg ≠ d.frac_reg)
    (hf4 : d.frac_reg ≠ d.ana_reg_base + 4) :
    (bcm2835_pll_set_rate d rate parent_rate m).1 = ClkResult.ok ∧
    land32 (cprman_read (bcm2835_pll_set_rate d rate parent_rate m).2 d.frac_reg)
        A2W_PLL_FRAC_MASK = rate * 2 ^ 20 / parent_rate % 2 ^ 20 ∧
    land32 (cprman_read (bcm2835_pll_set_rate d rate parent_rate m).2 d.a2w_ctrl_reg)
        A2W_PLL_CTRL_NDIV_MASK >>> A2W_PLL_CTRL_NDIV_SHIFT =
      rate * 2 ^ 20 / parent_rate / 2 ^ 20 ∧
    land32 (cprman_read (bcm2835_pll_set_rate d rate parent_rate m).2 d.a2w_ctrl_reg)
        A2W_PLL_CTRL_PDIV_MASK >>> A2W_PLL_CTRL_PDIV_SHIFT = 1 ∧
    land32 (cprman_read (bcm2835_pll_set_rate d rate parent_rate m).2 (d.ana_reg_base + 4))
        (1 <<< d.ana.fb_prediv_bit) = 0 := by
  have hbit := land32_masked_or_zero (cprman_read m (d.ana_reg_base + 4))
    (not32 d.ana.mask1) d.ana.set1 (1 <<< d.ana.fb_prediv_bit) hm1 hs1
  rw [bcm2835_pll_set_rate_shape_nofb d rate parent_rate m hmin hfb hmax hbit
    hc1 hc2 hc3 hc4 hc5 hc6]
  obtain ⟨he, hlt⟩ := bcm2835_pll_choose_fst rate parent_rate hfit
  refine ⟨rfl, ?_, ?_, ?_, ?_⟩
  · rw [cprman_read_write_ne _ _ _ _ (Ne.symm hc6), cprman_read_write_self,
      bcm2835_pll_choose_snd rate parent_rate hr32]
    exact pll_frac_readback _ (Nat.mod_lt _ (by positivity))
  · rw [cprman_read_write_self, he]
    exact pll_ctrl_ndiv_readback _ _ hlt
  · rw [cprman_read_write_self, he]
    exact pll_ctrl_pdiv_readback _ _ hlt
  · rw [cprman_read_write_ne _ _ _ _ (Ne.symm hc4),
      cprman_read_write_ne _ _ _ _ (Ne.symm hf4), cprman_read_write_ana_a1]
    exact pll_ana1_bit_clear _ _ hbit hPB

theorem bcm2835_pll_set_rate_readback_fb (d : bcm2835_pll_data)
    (rate parent_rate : Nat) (m : MMIO)
    (hmin : d.min_rate ≤ rate) (hfb : d.max_fb_rate < rate)
    (hmax : rate ≤ d.max_rate)
    (hr32 : rate < 2 ^ 32) (hfit : rate < 1024 * parent_rate)
    (hm1 : land32 (not32 d.ana.mask1) (1 <<< d.ana.fb_prediv_bit) = 0)
    (hs1 : land32 d.ana.set1 (1 <<< d.ana.fb_prediv_bit) = 0)
    (hPB : land32 CM_PASSWORD (1 <<< d.ana.fb_prediv_bit) = 0)
    (hB : 1 <<< d.ana.fb_prediv_bit < 2 ^ 32)
    (hc1 : d.a2w_ctrl_reg ≠ A2W_XOSC_CTRL)
    (hc2 : d.a2w_ctrl_reg ≠ d.ana_reg_base + 12)
    (hc3 : d.a2w_ctrl_reg ≠ d.ana_reg_base + 8)
    (hc4 : d.a2w_ctrl_reg ≠ d.ana_reg_base + 4)
    (hc5 : d.a2w_ctrl_reg ≠ d.ana_reg_base + 0)
    (hc6 : d.a2w_ctrl_reg ≠ d.frac_reg)
    (hfa12 : d.frac_reg ≠ d.ana_reg_base + 12)
    (hfa8 : d.frac_reg ≠ d.ana_reg_base + 8)
    (hfa4 : d.frac_reg ≠ d.ana_reg_base + 4)
    (hfa0 : d.frac_reg ≠ d.ana_reg_base + 0) :
    (bcm2835_pll_set_rate d rate parent_rate m).1 = ClkResult.ok ∧
    land32 (cprman_read (bcm2835_pll_set_rate d rate parent_rate m).2 d.frac_reg)
        A2W_PLL_FRAC_MASK = rate / 2 * 2 ^ 20 / parent_rate % 2 ^ 20 ∧
    land32 (cprman_read (bcm2835_pll_set_rate d rate parent_rate m).2 d.a2w_ctrl_reg)
        A2W_PLL_CTRL_NDIV_MASK >>> A2W_PLL_CTRL_NDIV_SHIFT =
      rate / 2 * 2 ^ 20 / parent_rate / 2 ^ 20 ∧
    land32 (cprman_read (bcm2835_pll_set_rate d rate parent_rate m).2 d.a2w_ctrl_reg)
        A2W_PLL_CTRL_PDIV_MASK >>> A2W_PLL_CTRL_PDIV_SHIFT = 1 ∧
    land32 (cprman_read (bcm2835_pll_set_rate d rate parent_rate m).2 (d.ana_reg_base + 4))
        (1 <<< d.ana.fb_prediv_bit) = 1 <<< d.ana.fb_prediv_bit := by
  have hbit := land32_masked_or_zero (cprman_read m (d.ana_reg_base + 4))
    (not32 d.ana.mask1) d.ana.set1 (1 <<< d.ana.fb_prediv_bit) hm1 hs1
  rw [bcm2835_pll_set_rate_shape_fb d rate parent_rate m hmin hfb hmax hbit hc1 hc6]
  have hr32' : rate / 2 < 2 ^ 32 := by omega
  have hfit' : rate / 2 < 1024 * parent_rate := by omega
  obtain ⟨he, hlt⟩ := bcm2835_pll_choose_fst (rate / 2) parent_rate hfit'
  refine ⟨rfl, ?_, ?_, ?_, ?_⟩
  · rw [cprman_read_write_ana_ne _ _ _ _ _ _ _ hfa12 hfa8 hfa4 hfa0,
      cprman_read_write_ne _ _ _ _ (Ne.symm hc6), cprman_read_write_self,
      bcm2835_pll_choose_snd (rate / 2) parent_rate hr32']
    exact pll_frac_readback _ (Nat.mod_lt _ (by positivity))
  · rw [cprman_read_write_ana_ne _ _ _ _ _ _ _ hc2 hc3 hc4 hc5,
      cprman_read_write_self, he]
    exact pll_ctrl_ndiv_readback _ _ hlt
  · rw [cprman_read_write_ana_ne _ _ _ _ _ _ _ hc2 hc3 hc4 hc5,
      cprman_read_write_self, he]
    exact pll_ctrl_pdiv_readback _ _ hlt
  · rw [cprman_read_write_ana_a1]
    exact pll_ana1_bit_set _ _ hbit hPB hB

/-- C1: for every PLL and every in-range requested rate (with the divisor
fitting its 10-bit field, which holds whenever `rate < 1024 * parent_rate`,
in particular at the 19.2 MHz oscillator): `set_rate` halves the rate and
sets the feedback pre-divider bit exactly when `rate > max_fb_rate`,
computes `div = (rate' << 20) / parent_rate`, and stores
`fdiv = div mod 2^20` in the fractional register (also visible as the
traced write) and `ndiv = div >> 20` in the ndiv field of the control
register. -/
theorem bcm2835_pll_set_rate_divisors (d : bcm2835_pll_data)
    (rate parent_rate : Nat) (m : MMIO) (hd : d ∈ bcm2835_plls)
    (hmin : d.min_rate ≤ rate) (hmax : rate ≤ d.max_rate)
    (hfit : rate < 1024 * parent_rate) :
    (bcm2835_pll_set_rate d rate parent_rate m).1 = ClkResult.ok ∧
    (d.frac_reg,
      (if d.max_fb_rate < rate then rate / 2 else rate) * 2 ^ 20 / parent_rate %
        2 ^ 20) ∈ (bcm2835_pll_set_rate d rate parent_rate m).2.trace ∧
    land32 (cprman_read (bcm2835_pll_set_rate d rate parent_rate m).2 d.frac_reg)
        A2W_PLL_FRAC_MASK =
      (if d.max_fb_rate < rate then rate / 2 else rate) * 2 ^ 20 / parent_rate %
        2 ^ 20 ∧
    land32 (cprman_read (bcm2835_pll_set_rate d rate parent_rate m).2 d.a2w_ctrl_reg)
        A2W_PLL_CTRL_NDIV_MASK >>> A2W_PLL_CTRL_NDIV_SHIFT =
      (if d.max_fb_rate < rate then rate / 2 else rate) * 2 ^ 20 / parent_rate /
        2 ^ 20 ∧
    land32
      (cprman_read (bcm2835_pll_set_rate d rate parent_rate m).2 (d.ana_reg_base + 4))
      (1 <<< d.ana.fb_prediv_bit) =
      (if d.max_fb_rate < rate then 1 <<< d.ana.fb_prediv_bit else 0) := by
  have hside : d.max_rate < 2 ^ 32 ∧
      land32 (not32 d.ana.mask1) (1 <<< d.ana.fb_prediv_bit) = 0 ∧
      land32 d.ana.set1 (1 <<< d.ana.fb_prediv_bit) = 0 ∧
      land32 CM_PASSWORD (1 <<< d.ana.fb_prediv_bit) = 0 ∧
      1 <<< d.ana.fb_prediv_bit < 2 ^ 32 ∧
      d.a2w_ctrl_reg ≠ A2W_XOSC_CTRL ∧
      d.a2w_ctrl_reg ≠ d.ana_reg_base + 12 ∧
      d.a2w_ctrl_reg ≠ d.ana_reg_base + 8 ∧
      d.a2w_ctrl_reg ≠ d.ana_reg_base + 4 ∧
      d.a2w_ctrl_reg ≠ d.ana_reg_base + 0 ∧
      d.a2w_ctrl_reg ≠ d.frac_reg ∧
      d.frac_reg ≠ d.ana_reg_base + 12 ∧
      d.frac_reg ≠ d.ana_reg_base + 8 ∧
      d.frac_reg ≠ d.ana_reg_base + 4 ∧
      d.frac_reg ≠ d.ana_reg_base + 0 := by
    fin_cases hd <;> decide
  obtain ⟨hm32, hm1, hs1, hPB, hB, hc1, hc2, hc3, hc4, hc5, hc6, hfa12, hfa8,
    hfa4, hfa0⟩ := hside
  have hr32 : rate < 2 ^ 32 := by omega
  have hbit := land32_masked_or_zero (cprman_read m (d.ana_reg_base + 4))
    (not32 d.ana.mask1) d.ana.set1 (1 <<< d.ana.fb_prediv_bit) hm1 hs1
  by_cases hu : d.max_fb_rate < rate
  · obtain ⟨h1, h2, h3, h4, h5⟩ := bcm2835_pll_set_rate_readback_fb d rate
      parent_rate m hmin hu hmax hr32 hfit hm1 hs1 hPB hB hc1 hc2 hc3 hc4 hc5 hc6
      hfa12 hfa8 hfa4 hfa0
    have htr : (d.frac_reg,
        (bcm2835_pll_choose_ndiv_and_fdiv (rate / 2) parent_rate).2) ∈
        (bcm2835_pll_set_rate d rate parent_rate m).2.trace := by
      rw [bcm2835_pll_set_rate_shape_fb d rate parent_rate m hmin hu hmax hbit
        hc1 hc6]
      simp [bcm2835_pll_write_ana_trace, cprman_write_trace]
    rw [bcm2835_pll_choose_snd (rate / 2) parent_rate (by omega)] at htr
    simp only [if_pos hu]
    exact ⟨h1, htr, h2, h3, h5⟩
  · have hfb : rate ≤ d.max_fb_rate := by omega
    obtain ⟨h1, h2, h3, h4, h5⟩ := bcm2835_pll_set_rate_readback_nofb d rate
      parent_rate m hmin hfb hmax hr32 hfit hm1 hs1 hPB hc1 hc2 hc3 hc4 hc5 hc6
      hfa4
    have htr : (d.frac_reg,
        (bcm2835_pll_choose_ndiv_and_fdiv rate parent_rate).2) ∈
        (bcm2835_pll_set_rate d rate parent_rate m).2.trace := by
      rw [bcm2835_pll_set_rate_shape_nofb d rate parent_rate m hmin hfb hmax hbit
        hc1 hc2 hc3 hc4 hc5 hc6]
      simp [bcm2835_pll_write_ana_trace, cprman_write_trace]
    rw [bcm2835_pll_choose_snd rate parent_rate hr32] at htr
    simp only [if_neg hu]
    exact ⟨h1, htr, h2, h3, h5⟩

theorem bcm2835_pll_set_rate_divisors_witness :
    bcm2835_plla_data ∈ bcm2835_plls ∧
    bcm2835_plla_data.min_rate ≤ 1900000000 ∧
    1900000000 ≤ bcm2835_plla_data.max_rate ∧
    1900000000 < 1024 * 19200000 ∧
    ((bcm2835_pll_set_rate bcm2835_plla_data 1900000000 19200000 mmio0).1 =
      ClkResult.ok ∧
    (bcm2835_plla_data.frac_reg,
      (if bcm2835_plla_data.max_fb_rate < 1900000000 then 1900000000 / 2
        else 1900000000) * 2 ^ 20 / 19200000 % 2 ^ 20) ∈
      (bcm2835_pll_set_rate bcm2835_plla_data 1900000000 19200000 mmio0).2.trace ∧
    land32
        (cprman_read (bcm2835_pll_set_rate bcm2835_plla_data 1900000000 19200000 mmio0).2
          bcm2835_plla_data.frac_reg) A2W_PLL_FRAC_MASK =
      (if bcm2835_plla_data.max_fb_rate < 1900000000 then 1900000000 / 2
        else 1900000000) * 2 ^ 20 / 19200000 % 2 ^ 20 ∧
    land32
        (cprman_read (bcm2835_pll_set_rate bcm2835_plla_data 1900000000 19200000 mmio0).2
          bcm2835_plla_data.a2w_ctrl_reg)
        A2W_PLL_CTRL_NDIV_MASK >>> A2W_PLL_CTRL_NDIV_SHIFT =
      (if bcm2835_plla_data.max_fb_rate < 1900000000 then 1900000000 / 2
        else 1900000000) * 2 ^ 20 / 19200000 / 2 ^ 20 ∧
    land32
      (cprman_read (bcm2835_pll_set_rate bcm2835_plla_data 1900000000 19200000 mmio0).2
        (bcm2835_plla_data.ana_reg_base + 4))
      (1 <<< bcm2835_plla_data.ana.fb_prediv_bit) =
      (if bcm2835_plla_data.max_fb_rate < 1900000000 then
        1 <<< bcm2835_plla_data.ana.fb_prediv_bit
      else 0)) :=
  ⟨by decide, by decide, by decide, by decide,
   bcm2835_pll_set_rate_divisors bcm2835_plla_data 1900000000 19200000 mmio0
     (by decide) (by decide) (by decide) (by decide)⟩

/-- Evaluate `bcm2835_pll_get_rate` from known register fields when the
feedback pre-divider bit is clear and the read-back `pdiv` is 1. -/
theorem pll_get_rate_eval (d : bcm2835_pll_data) (p : Nat) (m : MMIO)
    (hp : p ≠ 0) (nv fv : Nat)
    (hf : land32 (cprman_read m d.frac_reg) A2W_PLL_FRAC_MASK = fv)
    (hn : land32 (cprman_read m d.a2w_ctrl_reg) A2W_PLL_CTRL_NDIV_MASK >>>
      A2W_PLL_CTRL_NDIV_SHIFT = nv)
    (hpd : land32 (cprman_read m d.a2w_ctrl_reg) A2W_PLL_CTRL_PDIV_MASK >>>
      A2W_PLL_CTRL_PDIV_SHIFT = 1)
    (hb : land32 (cprman_read m (d.ana_reg_base + 4))
      (1 <<< d.ana.fb_prediv_bit) = 0) :
    bcm2835_pll_get_rate d p m =
      U32 ((p * U32 ((nv <<< A2W_PLL_FRAC_BITS) + fv)) >>> A2W_PLL_FRAC_BITS) := by
  unfold bcm2835_pll_get_rate bcm2835_pll_rate_from_divisors
  rw [if_neg hp]
  simp only [hb, ne_eq, not_true_eq_false, if_false, hf, hn, hpd,
    not_false_eq_true, eq_self_iff_true]
  rw [if_neg (by omega : ¬(1 : Nat) = 0), Nat.div_one]

/-- C9: every successful PLL `set_rate` stores the constant 1 in the output
post-divisor field of the control register (true for every in-range rate
whose divisor fits the 10-bit ndiv field, regardless of the feedback
pre-divider decision), so a later `get_rate` with a nonzero parent rate
reads back `pdiv = 1` and never takes the `pdiv = 0` zero-return branch of
`bcm2835_pll_rate_from_divisors`. -/
theorem bcm2835_pll_set_rate_pdiv_one (d : bcm2835_pll_data)
    (rate parent_rate p2 : Nat) (m : MMIO) (hd : d ∈ bcm2835_plls)
    (hmin : d.min_rate ≤ rate) (hmax : rate ≤ d.max_rate)
    (hfit : rate < 1024 * parent_rate) :
    (bcm2835_pll_set_rate d rate parent_rate m).1 = ClkResult.ok ∧
    land32 (cprman_read (bcm2835_pll_set_rate d rate parent_rate m).2 d.a2w_ctrl_reg)
        A2W_PLL_CTRL_PDIV_MASK >>> A2W_PLL_CTRL_PDIV_SHIFT = 1 ∧
    (p2 ≠ 0 →
      bcm2835_pll_get_rate d p2 (bcm2835_pll_set_rate d rate parent_rate m).2 =
        bcm2835_pll_rate_from_divisors p2
          (if land32
              (cprman_read (bcm2835_pll_set_rate d rate parent_rate m).2
                (d.ana_reg_base + 4)) (1 <<< d.ana.fb_prediv_bit) ≠ 0 then
            U32 ((land32
              (cprman_read (bcm2835_pll_set_rate d rate parent_rate m).2
                d.a2w_ctrl_reg) A2W_PLL_CTRL_NDIV_MASK >>>
                A2W_PLL_CTRL_NDIV_SHIFT) * 2)
          else
            land32
              (cprman_read (bcm2835_pll_set_rate d rate parent_rate m).2
                d.a2w_ctrl_reg) A2W_PLL_CTRL_NDIV_MASK >>>
              A2W_PLL_CTRL_NDIV_SHIFT)
          (land32
            (cprman_read (bcm2835_pll_set_rate d rate parent_rate m).2 d.frac_reg)
            A2W_PLL_FRAC_MASK)
          1) := by
  have hside : d.max_rate < 2 ^ 32 ∧
      land32 (not32 d.ana.mask1) (1 <<< d.ana.fb_prediv_bit) = 0 ∧
      land32 d.ana.set1 (1 <<< d.ana.fb_prediv_bit) = 0 ∧
      land32 CM_PASSWORD (1 <<< d.ana.fb_prediv_bit) = 0 ∧
      1 <<< d.ana.fb_prediv_bit < 2 ^ 32 ∧
      d.a2w_ctrl_reg ≠ A2W_XOSC_CTRL ∧
      d.a2w_ctrl_reg ≠ d.ana_reg_base + 12 ∧
      d.a2w_ctrl_reg ≠ d.ana_reg_base + 8 ∧
      d.a2w_ctrl_reg ≠ d.ana_reg_base + 4 ∧
      d.a2w_ctrl_reg ≠ d.ana_reg_base + 0 ∧
      d.a2w_ctrl_reg ≠ d.frac_reg ∧
      d.frac_reg ≠ d.ana_reg_base + 12 ∧
      d.frac_reg ≠ d.ana_reg_base + 8 ∧
      d.frac_reg ≠ d.ana_reg_base + 4 ∧
      d.frac_reg ≠ d.ana_reg_base + 0 := by
    fin_cases hd <;> decide
  obtain ⟨hm32, hm1, hs1, hPB, hB, hc1, hc2, hc3, hc4, hc5, hc6, hfa12, hfa8,
    hfa4, hfa0⟩ := hside
  have hr32 : rate < 2 ^ 32 := by omega
  have hkey : (bcm2835_pll_set_rate d rate parent_rate m).1 = ClkResult.ok ∧
      land32 (cprman_read (bcm2835_pll_set_rate d rate parent_rate m).2
        d.a2w_ctrl_reg) A2W_PLL_CTRL_PDIV_MASK >>> A2W_PLL_CTRL_PDIV_SHIFT = 1 := by
    by_cases hu : d.max_fb_rate < rate
    · obtain ⟨h1, h2, h3, h4, h5⟩ := bcm2835_pll_set_rate_readback_fb d rate
        parent_rate m hmin hu hmax hr32 hfit hm1 hs1 hPB hB hc1 hc2 hc3 hc4 hc5
        hc6 hfa12 hfa8 hfa4 hfa0
      exact ⟨h1, h4⟩
    · obtain ⟨h1, h2, h3, h4, h5⟩ := bcm2835_pll_set_rate_readback_nofb d rate
        parent_rate m hmin (by omega) hmax hr32 hfit hm1 hs1 hPB hc1 hc2 hc3 hc4
        hc5 hc6 hfa4
      exact ⟨h1, h4⟩
  refine ⟨hkey.1, hkey.2, fun hp2 => ?_⟩
  unfold bcm2835_pll_get_rate
  rw [if_neg hp2, hkey.2]

/-- C4 counterexample: with the nominal 19.2 MHz oscillator parent, the
set-then-get round trip is NOT within one fractional-divisor step
(`p / 2^20 = 18` Hz) of the request for every in-range rate.  At
1.9 GHz (above `max_fb_rate`, so the pre-divider halves the rate but the
readback doubles only `ndiv`, not `fdiv`) the readback is about 9.2 MHz
low; and even below `max_fb_rate`, at 600000073 Hz the defect is 19 Hz,
one more than `p / 2^20`. -/
theorem bcm2835_pll_set_rate_roundtrip_counterexample :
    (bcm2835_plla_data.min_rate ≤ 1900000000 ∧
      1900000000 ≤ bcm2835_plla_data.max_rate ∧
      1900000000 -
        bcm2835_pll_get_rate bcm2835_plla_data 19200000
          (bcm2835_pll_set_rate bcm2835_plla_data 1900000000 19200000 mmio0).2 >
        19200000 / 2 ^ 20) ∧
    (bcm2835_plla_data.min_rate ≤ 600000073 ∧
      600000073 ≤ bcm2835_plla_data.max_rate ∧
      600000073 ≤ bcm2835_plla_data.max_fb_rate ∧
      600000073 -
        bcm2835_pll_get_rate bcm2835_plla_data 19200000
          (bcm2835_pll_set_rate bcm2835_plla_data 600000073 19200000 mmio0).2 >
        19200000 / 2 ^ 20) := by
  decide

/-- C4 amended: for every PLL and every rate in `[min_rate, max_fb_rate]`
(so the feedback pre-divider stays off), with the parent fixed at the
nominal 19.2 MHz oscillator, `set_rate` then `get_rate` returns a value
that never exceeds the request and falls short of it by at most
`p / 2^20 + 1` Hz.  (Above `max_fb_rate` the claim fails: the readback
doubles only `ndiv`, so it can be up to `p * fdiv / 2^20` low.) -/
theorem bcm2835_pll_set_rate_roundtrip (d : bcm2835_pll_data) (rate : Nat)
    (m : MMIO) (hd : d ∈ bcm2835_plls)
    (hmin : d.min_rate ≤ rate) (hfb : rate ≤ d.max_fb_rate) :
    (bcm2835_pll_set_rate d rate 19200000 m).1 = ClkResult.ok ∧
    bcm2835_pll_get_rate d 19200000
        (bcm2835_pll_set_rate d rate 19200000 m).2 ≤ rate ∧
    rate ≤ bcm2835_pll_get_rate d 19200000
        (bcm2835_pll_set_rate d rate 19200000 m).2 + (19200000 / 2 ^ 20 + 1) := by
  have hside : d.max_fb_rate = 1750000000 ∧ d.max_fb_rate ≤ d.max_rate ∧
      land32 (not32 d.ana.mask1) (1 <<< d.ana.fb_prediv_bit) = 0 ∧
      land32 d.ana.set1 (1 <<< d.ana.fb_prediv_bit) = 0 ∧
      land32 CM_PASSWORD (1 <<< d.ana.fb_prediv_bit) = 0 ∧
      d.a2w_ctrl_reg ≠ A2W_XOSC_CTRL ∧
      d.a2w_ctrl_reg ≠ d.ana_reg_base + 12 ∧
      d.a2w_ctrl_reg ≠ d.ana_reg_base + 8 ∧
      d.a2w_ctrl_reg ≠ d.ana_reg_base + 4 ∧
      d.a2w_ctrl_reg ≠ d.ana_reg_base + 0 ∧
      d.a2w_ctrl_reg ≠ d.frac_reg ∧
      d.frac_reg ≠ d.ana_reg_base + 4 := by
    fin_cases hd <;> decide
  obtain ⟨hfb175, hfbmax, hm1, hs1, hPB, hc1, hc2, hc3, hc4, hc5, hc6, hf4⟩ :=
    hside
  have hmax : rate ≤ d.max_rate := le_trans hfb hfbmax
  have hr32 : rate < 2 ^ 32 := by omega
  have hfit : rate < 1024 * 19200000 := by omega
  obtain ⟨h1, h2, h3, h4, h5⟩ := bcm2835_pll_set_rate_readback_nofb d rate
    19200000 m hmin hfb hmax hr32 hfit hm1 hs1 hPB hc1 hc2 hc3 hc4 hc5 hc6 hf4
  have hgr := pll_get_rate_eval d 19200000
    (bcm2835_pll_set_rate d rate 19200000 m).2 (by norm_num) _ _ h2 h3 h4 h5
  rw [hgr]
  have e1 : ((rate * 2 ^ 20 / 19200000 / 2 ^ 20) <<< A2W_PLL_FRAC_BITS)
      = rate * 2 ^ 20 / 19200000 / 2 ^ 20 * 2 ^ 20 := Nat.shiftLeft_eq _ 20
  rw [e1]
  have e2 : rate * 2 ^ 20 / 19200000 / 2 ^ 20 * 2 ^ 20 +
      rate * 2 ^ 20 / 19200000 % 2 ^ 20 = rate * 2 ^ 20 / 19200000 := by omega
  rw [e2]
  unfold U32
  have e3 : rate * 2 ^ 20 / 19200000 % 2 ^ 32 = rate * 2 ^ 20 / 19200000 := by
    omega
  rw [e3]
  have e4 : (19200000 * (rate * 2 ^ 20 / 19200000)) >>> A2W_PLL_FRAC_BITS
      = 19200000 * (rate * 2 ^ 20 / 19200000) / 2 ^ 20 :=
    Nat.shiftRight_eq_div_pow _ 20
  rw [e4]
  have hub : rate ≤ 1750000000 := by omega
  have e5 : 19200000 * (rate * 2 ^ 20 / 19200000) / 2 ^ 20 % 2 ^ 32
      = 19200000 * (rate * 2 ^ 20 / 19200000) / 2 ^ 20 := by omega
  rw [e5]
  refine ⟨h1, ?_, ?_⟩ <;> omega

theorem bcm2835_pll_set_rate_roundtrip_witness :
    bcm2835_pllc_data ∈ bcm2835_plls ∧
    bcm2835_pllc_data.min_rate ≤ 1000000007 ∧
    1000000007 ≤ bcm2835_pllc_data.max_fb_rate ∧
    ((bcm2835_pll_set_rate bcm2835_pllc_data 1000000007 19200000 mmio0).1 =
      ClkResult.ok ∧
    bcm2835_pll_get_rate bcm2835_pllc_data 19200000
        (bcm2835_pll_set_rate bcm2835_pllc_data 1000000007 19200000 mmio0).2 ≤
      1000000007 ∧
    1000000007 ≤ bcm2835_pll_get_rate bcm2835_pllc_data 19200000
        (bcm2835_pll_set_rate bcm2835_pllc_data 1000000007 19200000 mmio0).2 +
        (19200000 / 2 ^ 20 + 1)) :=
  ⟨by decide, by decide, by decide,
   bcm2835_pll_set_rate_roundtrip bcm2835_pllc_data 1000000007 mmio0
     (by decide) (by decide) (by decide)⟩

theorem bcm2835_pll_set_rate_pdiv_one_witness :
    bcm2835_pllb_data ∈ bcm2835_plls ∧
    bcm2835_pllb_data.min_rate ≤ 2800000000 ∧
    2800000000 ≤ bcm2835_pllb_data.max_rate ∧
    2800000000 < 1024 * 19200000 ∧
    ((bcm2835_pll_set_rate bcm2835_pllb_data 2800000000 19200000 mmio0).1 =
      ClkResult.ok ∧
    land32
        (cprman_read (bcm2835_pll_set_rate bcm2835_pllb_data 2800000000 19200000 mmio0).2
          bcm2835_pllb_data.a2w_ctrl_reg)
        A2W_PLL_CTRL_PDIV_MASK >>> A2W_PLL_CTRL_PDIV_SHIFT = 1 ∧
    ((19200000 : Nat) ≠ 0 →
      bcm2835_pll_get_rate bcm2835_pllb_data 19200000
          (bcm2835_pll_set_rate bcm2835_pllb_data 2800000000 19200000 mmio0).2 =
        bcm2835_pll_rate_from_divisors 19200000
          (if land32
              (cprman_read
                (bcm2835_pll_set_rate bcm2835_pllb_data 2800000000 19200000 mmio0).2
                (bcm2835_pllb_data.ana_reg_base + 4))
              (1 <<< bcm2835_pllb_data.ana.fb_prediv_bit) ≠ 0 then
            U32 ((land32
              (cprman_read
                (bcm2835_pll_set_rate bcm2835_pllb_data 2800000000 19200000 mmio0).2
                bcm2835_pllb_data.a2w_ctrl_reg) A2W_PLL_CTRL_NDIV_MASK >>>
                A2W_PLL_CTRL_NDIV_SHIFT) * 2)
          else
            land32
              (cprman_read
                (bcm2835_pll_set_rate bcm2835_pllb_data 2800000000 19200000 mmio0).2
                bcm2835_pllb_data.a2w_ctrl_reg) A2W_PLL_CTRL_NDIV_MASK >>>
              A2W_PLL_CTRL_NDIV_SHIFT)
          (land32
            (cprman_read
              (bcm2835_pll_set_rate bcm2835_pllb_data 2800000000 19200000 mmio0).2
              bcm2835_pllb_data.frac_reg)
            A2W_PLL_FRAC_MASK)
          1)) :=
  ⟨by decide, by decide, by decide, by decide,
   bcm2835_pll_set_rate_pdiv_one bcm2835_pllb_data 2800000000 19200000 19200000
     mmio0 (by decide) (by decide) (by decide) (by decide)⟩

theorem notF_zero (f : Nat) : notF f 0 = 2 ^ f - 1 := by
  induction f with
  | zero => rfl
  | succ f ih =>
    show 2 * notF f (0 / 2) + (1 - 0 % 2) = 2 ^ (f + 1) - 1
    rw [Nat.zero_div, ih]
    have : (1 : Nat) ≤ 2 ^ f := Nat.one_le_two_pow
    rw [pow_succ]
    omega

/-- ANDing against the complement of a low-bit mask clears the low bits. -/
theorem landF_notF_mask (f k x : Nat) (hk : k ≤ f) (hx : x < 2 ^ f) :
    landF f x (notF f (2 ^ k - 1)) = x / 2 ^ k * 2 ^ k := by
  induction f generalizing k x with
  | zero =>
    have : x = 0 := by omega
    subst this
    simp [landF]
  | succ f ih =>
    cases k with
    | zero =>
      have h0 : (2 : Nat) ^ 0 - 1 = 0 := by norm_num
      rw [h0, notF_zero]
      rw [landF_mask (f + 1) (f + 1) x (le_refl _) hx, Nat.mod_eq_of_lt hx]
      simp
    | succ k =>
      have hk' : k ≤ f := by omega
      have hx' : x / 2 < 2 ^ f := by rw [pow_succ] at hx; omega
      have h2k : (1 : Nat) ≤ 2 ^ k := Nat.one_le_two_pow
      have hd : (2 ^ (k + 1) - 1) / 2 = 2 ^ k - 1 := by rw [pow_succ]; omega
      have hm : (2 ^ (k + 1) - 1) % 2 = 1 := by rw [pow_succ]; omega
      have hnot : notF (f + 1) (2 ^ (k + 1) - 1) = 2 * notF f (2 ^ k - 1) + 0 := by
        show 2 * notF f ((2 ^ (k + 1) - 1) / 2) + (1 - (2 ^ (k + 1) - 1) % 2) =
          2 * notF f (2 ^ k - 1) + 0
        rw [hd, hm]
      rw [hnot]
      have hland : landF (f + 1) x (2 * notF f (2 ^ k - 1) + 0) =
          2 * landF f (x / 2) (notF f (2 ^ k - 1)) + 0 := by
        show 2 * landF f (x / 2) ((2 * notF f (2 ^ k - 1) + 0) / 2) +
            min (x % 2) ((2 * notF f (2 ^ k - 1) + 0) % 2) = _
        have e1 : (2 * notF f (2 ^ k - 1) + 0) / 2 = notF f (2 ^ k - 1) := by omega
        have e2 : (2 * notF f (2 ^ k - 1) + 0) % 2 = 0 := by omega
        rw [e1, e2]
        have : min (x % 2) 0 = 0 := by omega
        omega
      rw [hland, ih k (x / 2) hk' hx']
      have e3 : x / 2 / 2 ^ k = x / 2 ^ (k + 1) := by
        rw [Nat.div_div_eq_div_mul, pow_succ']
      rw [e3, pow_succ]
      ring

theorem land32_not32_mask (k x : Nat) (hk : k ≤ 32) (hx : x < 2 ^ 32) :
    land32 x (not32 (2 ^ k - 1)) = x / 2 ^ k * 2 ^ k :=
  landF_notF_mask 32 k x hk hx

theorem two_pow_sub_one_div (a b : Nat) (h : b ≤ a) :
    (2 ^ a - 1) / 2 ^ b = 2 ^ (a - b) - 1 := by
  have hb : (0 : Nat) < 2 ^ b := by positivity
  have h1 : (0 : Nat) < 2 ^ (a - b) := by positivity
  have hab : 2 ^ (a - b) * 2 ^ b = 2 ^ a := by
    rw [← pow_add]
    congr 1
    omega
  apply Nat.div_eq_of_lt_le
  · have e : (2 ^ (a - b) - 1) * 2 ^ b = 2 ^ a - 2 ^ b := by
      rw [Nat.sub_mul, one_mul, hab]
    rw [e]
    exact Nat.sub_le_sub_left hb (2 ^ a)
  · have e : (2 ^ (a - b) - 1 + 1) * 2 ^ b = 2 ^ a := by
      rw [Nat.sub_add_cancel h1, hab]
    rw [e]
    have : (0 : Nat) < 2 ^ a := by positivity
    omega

/-- Arithmetic form of `bcm2835_clock_choose_div`: the bit operations on the
unused fractional bits amount to truncating division to a multiple of the
step `2 ^ (12 - frac_bits)` (after the u32 additions), and the two clamp
masks are the step and the largest representable multiple. -/
theorem bcm2835_clock_choose_div_eval (d : bcm2835_clock_data)
    (rate parent_rate : Nat) (hfb : d.frac_bits ≤ 12) (hib : d.int_bits + 12 ≤ 32) :
    bcm2835_clock_choose_div d rate parent_rate =
      min
        (max
          ((((parent_rate * 2 ^ 12 / rate) % 2 ^ 32 +
              (2 ^ (12 - d.frac_bits) - 1) / 2) % 2 ^ 32 /
            2 ^ (12 - d.frac_bits)) * 2 ^ (12 - d.frac_bits))
          (2 ^ (12 - d.frac_bits)))
        ((2 ^ (d.int_bits + d.frac_bits) - 1) * 2 ^ (12 - d.frac_bits)) := by
  have hcd : CM_DIV_FRAC_BITS = 12 := rfl
  have hX : 2 ^ (d.int_bits + 12) - 1 < 2 ^ 32 := by
    have h1 : 2 ^ (d.int_bits + 12) ≤ 2 ^ 32 :=
      Nat.pow_le_pow_right (by omega) hib
    have h2 : (0 : Nat) < 2 ^ (d.int_bits + 12) := by positivity
    omega
  unfold bcm2835_clock_choose_div U32
  rw [hcd, Nat.shiftLeft_eq parent_rate 12]
  simp only [Nat.one_shiftLeft]
  by_cases hk : 12 - d.frac_bits = 0
  · have hf12 : d.frac_bits = 12 := by omega
    rw [hk, hf12] at *
    simp only [pow_zero, Nat.sub_self, Nat.zero_div, Nat.add_zero, Nat.div_one,
      Nat.mul_one]
    rw [if_neg (by omega : ¬(0 : Nat) ≠ 0)]
    have hnz : not32 0 = 2 ^ 32 - 1 := by decide
    rw [hnz, land32_mask_self 32 _ (le_refl 32) hX,
      Nat.mod_mod_of_dvd _ dvd_rfl, Nat.zero_add]
  · have hkpos : (1 : Nat) ≤ 2 ^ (12 - d.frac_bits) := Nat.one_le_two_pow
    have hk2 : (2 : Nat) ≤ 2 ^ (12 - d.frac_bits) := by
      have : 2 ^ 1 ≤ 2 ^ (12 - d.frac_bits) :=
        Nat.pow_le_pow_right (by omega) (by omega)
      omega
    rw [if_pos (by omega : 2 ^ (12 - d.frac_bits) - 1 ≠ 0)]
    have hsh : (2 ^ (12 - d.frac_bits) - 1) >>> 1 = (2 ^ (12 - d.frac_bits) - 1) / 2 := by
      have := Nat.shiftRight_eq_div_pow (2 ^ (12 - d.frac_bits) - 1) 1
      rw [this, pow_one]
    rw [hsh]
    rw [land32_not32_mask (12 - d.frac_bits) _ (by omega)
      (Nat.mod_lt _ (by positivity))]
    rw [land32_not32_mask (12 - d.frac_bits) _ (by omega) hX]
    rw [two_pow_sub_one_div (d.int_bits + 12) (12 - d.frac_bits) (by omega)]
    have hi : d.int_bits + 12 - (12 - d.frac_bits) = d.int_bits + d.frac_bits := by
      omega
    rw [hi]
    have hm1 : 2 ^ (12 - d.frac_bits) - 1 + 1 = 2 ^ (12 - d.frac_bits) := by omega
    rw [hm1]

/-- Modelled from the spec: the divisor choice exactly as claim C5 words it,
with `div = round(parent_rate * 2^12 / rate)` (rounding to nearest, no
32-bit truncation), the unused low bits rounded off by adding half of the
unused-bit mask and masking them away, and the result clamped to
`[2^(12-frac_bits), (2^(int_bits+frac_bits) - 1) * 2^(12-frac_bits)]`.
Stated only to compare against `bcm2835_clock_choose_div`. -/
def bcm2835_clock_choose_div_spec (data : bcm2835_clock_data)
    (rate parent_rate : Nat) : Nat :=
  let step := 2 ^ (CM_DIV_FRAC_BITS - data.frac_bits)
  let mask := step - 1
  let div := (parent_rate * 2 ^ CM_DIV_FRAC_BITS + rate / 2) / rate
  let div := (div + mask / 2) / step * step
  min (max div step) ((2 ^ (data.int_bits + data.frac_bits) - 1) * step)

/-- C5 counterexample: the code's divisor is the u32-truncated FLOOR of
`parent_rate * 2^12 / rate`, not the rounded-to-nearest value the claim
describes.  On the uart clock (12 fractional bits, so no unused-bit
rounding), rate 5 and parent 4 give floor 3276 versus round 3277; and with
parent `2^30` and rate 1 the 32-bit truncation drops the quotient to 0,
which clamps up to 1 instead of the claim's maximum-representable value. -/
theorem bcm2835_clock_choose_div_counterexample :
    ((0 : Nat) < 5 ∧ (0 : Nat) < 4 ∧
      bcm2835_clock_choose_div bcm2835_clock_uart_data 5 4 ≠
        bcm2835_clock_choose_div_spec bcm2835_clock_uart_data 5 4) ∧
    ((0 : Nat) < 1 ∧ (0 : Nat) < 2 ^ 30 ∧
      bcm2835_clock_choose_div bcm2835_clock_uart_data 1 (2 ^ 30) ≠
        bcm2835_clock_choose_div_spec bcm2835_clock_uart_data 1 (2 ^ 30)) := by
  decide

/-- C5 amended: for every peripheral clock and all positive rates,
`choose_div` computes the u32-truncated floor `(parent_rate * 2^12 / rate)
mod 2^32`, rounds the low `12 - frac_bits` unused bits off by adding half
the unused-bit mask (in u32) and clearing them, and clamps the result to
the closed interval from the smallest nonzero representable step
`2^(12 - frac_bits)` up to the largest value representable in
`int_bits + frac_bits` bits times the step; the result is a multiple of the
step and never 0. -/
theorem bcm2835_clock_choose_div_floor_clamped (d : bcm2835_clock_data)
    (rate parent_rate : Nat) (hd : d ∈ bcm2835_clocks)
    (hr : 0 < rate) (hp : 0 < parent_rate) :
    bcm2835_clock_choose_div d rate parent_rate =
      min
        (max
          ((((parent_rate * 2 ^ 12 / rate) % 2 ^ 32 +
              (2 ^ (12 - d.frac_bits) - 1) / 2) % 2 ^ 32 /
            2 ^ (12 - d.frac_bits)) * 2 ^ (12 - d.frac_bits))
          (2 ^ (12 - d.frac_bits)))
        ((2 ^ (d.int_bits + d.frac_bits) - 1) * 2 ^ (12 - d.frac_bits)) ∧
    2 ^ (12 - d.frac_bits) ≤ bcm2835_clock_choose_div d rate parent_rate ∧
    bcm2835_clock_choose_div d rate parent_rate ≤
      (2 ^ (d.int_bits + d.frac_bits) - 1) * 2 ^ (12 - d.frac_bits) ∧
    bcm2835_clock_choose_div d rate parent_rate % 2 ^ (12 - d.frac_bits) = 0 ∧
    0 < bcm2835_clock_choose_div d rate parent_rate := by
  have hside : d.frac_bits ≤ 12 ∧ d.int_bits + 12 ≤ 32 ∧ 1 ≤ d.int_bits := by
    fin_cases hd <;> exact ⟨by decide, by decide, by decide⟩
  have heval := bcm2835_clock_choose_div_eval d rate parent_rate hside.1 hside.2.1
  have hone : 1 ≤ 2 ^ (d.int_bits + d.frac_bits) - 1 := by
    have h2 : 2 ^ 1 ≤ 2 ^ (d.int_bits + d.frac_bits) :=
      Nat.pow_le_pow_right (by omega) (by omega)
    omega
  have hstep_max : 2 ^ (12 - d.frac_bits) ≤
      (2 ^ (d.int_bits + d.frac_bits) - 1) * 2 ^ (12 - d.frac_bits) := by
    calc 2 ^ (12 - d.frac_bits) = 1 * 2 ^ (12 - d.frac_bits) := (one_mul _).symm
      _ ≤ (2 ^ (d.int_bits + d.frac_bits) - 1) * 2 ^ (12 - d.frac_bits) :=
        Nat.mul_le_mul_right _ hone
  have hlow : 2 ^ (12 - d.frac_bits) ≤ bcm2835_clock_choose_div d rate parent_rate := by
    rw [heval]
    exact le_min (le_max_right _ _) hstep_max
  refine ⟨heval, hlow, ?_, ?_, ?_⟩
  · rw [heval]
    exact min_le_right _ _
  · rw [heval]
    rcases min_choice
      (max
        ((((parent_rate * 2 ^ 12 / rate) % 2 ^ 32 +
            (2 ^ (12 - d.frac_bits) - 1) / 2) % 2 ^ 32 /
          2 ^ (12 - d.frac_bits)) * 2 ^ (12 - d.frac_bits))
        (2 ^ (12 - d.frac_bits)))
      ((2 ^ (d.int_bits + d.frac_bits) - 1) * 2 ^ (12 - d.frac_bits)) with h | h <;>
      rw [h]
    · rcases max_choice
        ((((parent_rate * 2 ^ 12 / rate) % 2 ^ 32 +
            (2 ^ (12 - d.frac_bits) - 1) / 2) % 2 ^ 32 /
          2 ^ (12 - d.frac_bits)) * 2 ^ (12 - d.frac_bits))
        (2 ^ (12 - d.frac_bits)) with h2 | h2 <;> rw [h2]
      · exact Nat.mul_mod_left _ _
      · exact Nat.mod_self _
    · exact Nat.mul_mod_left _ _
  · have hpos : (0 : Nat) < 2 ^ (12 - d.frac_bits) := by positivity
    omega

/-- Witness for the amended C5 theorem at the uart clock with rate 5 and
parent rate 4: hypotheses hold and the floor-clamp characterization follows. -/
theorem bcm2835_clock_choose_div_floor_clamped_witness :
    bcm2835_clock_uart_data ∈ bcm2835_clocks ∧ (0 : Nat) < 5 ∧ (0 : Nat) < 4 ∧
    (bcm2835_clock_choose_div bcm2835_clock_uart_data 5 4 =
      min
        (max
          ((((4 * 2 ^ 12 / 5) % 2 ^ 32 +
              (2 ^ (12 - bcm2835_clock_uart_data.frac_bits) - 1) / 2) % 2 ^ 32 /
            2 ^ (12 - bcm2835_clock_uart_data.frac_bits)) *
            2 ^ (12 - bcm2835_clock_uart_data.frac_bits))
          (2 ^ (12 - bcm2835_clock_uart_data.frac_bits)))
        ((2 ^ (bcm2835_clock_uart_data.int_bits + bcm2835_clock_uart_data.frac_bits) - 1) *
          2 ^ (12 - bcm2835_clock_uart_data.frac_bits)) ∧
    2 ^ (12 - bcm2835_clock_uart_data.frac_bits) ≤
      bcm2835_clock_choose_div bcm2835_clock_uart_data 5 4 ∧
    bcm2835_clock_choose_div bcm2835_clock_uart_data 5 4 ≤
      (2 ^ (bcm2835_clock_uart_data.int_bits + bcm2835_clock_uart_data.frac_bits) - 1) *
        2 ^ (12 - bcm2835_clock_uart_data.frac_bits) ∧
    bcm2835_clock_choose_div bcm2835_clock_uart_data 5 4 %
      2 ^ (12 - bcm2835_clock_uart_data.frac_bits) = 0 ∧
    0 < bcm2835_clock_choose_div bcm2835_clock_uart_data 5 4) :=
  ⟨by decide, by decide, by decide,
   bcm2835_clock_choose_div_floor_clamped bcm2835_clock_uart_data 5 4
     (by decide) (by decide) (by decide)⟩
